import Mathlib

/-!
Shallow embedding of the MockInvi payment / learning edge functions and the
SQL stored procedures they rely on, together with proofs of the spec's claims.

Sources embedded:
* `supabase/functions/enhanced-razorpay-payment/index.ts`
* `supabase/functions/enhanced-learning-service/index.ts`
* the SQL migration file (stored procedures, in particular
  `public.generateConsistentUUID`).
-/

set_option maxRecDepth 1000000

namespace MockInvi

/-! ## Generic JS-style string helpers

JS strings are sequences of UTF-16 code units; we model the relevant strings
as `List Char` (all characters that matter here are ASCII, where a Lean
`Char` and a UTF-16 code unit coincide) and code-unit sequences as `List Nat`.
-/

/-- The character for a single hex digit, lowercase, as produced both by JS
`Number.prototype.toString(16)` and by Postgres `to_hex`. -/
def hexDigitChar (n : Nat) : Char :=
  if n < 10 then Char.ofNat (48 + n) else Char.ofNat (87 + n)

/-- Hex digits with an explicit fuel bound (structural recursion, so that
the definition reduces; `fuel ≥ n` makes the fuel irrelevant). -/
def hexDigitsAux (fuel : Nat) (n : Nat) : List Char :=
  match fuel with
  | 0 => []
  | fuel + 1 =>
    if n = 0 then [] else hexDigitsAux fuel (n / 16) ++ [hexDigitChar (n % 16)]

/-- Hex digits of `n`, most significant first, no leading zeros; `[]` for 0. -/
def hexDigits (n : Nat) : List Char := hexDigitsAux n n

/-- JS `n.toString(16)` for a natural number: hex digits, `"0"` for zero. -/
def jsToString16 (n : Nat) : List Char :=
  if n = 0 then ['0'] else hexDigits n

/-- JS `String.prototype.padStart(len, '0')` / Postgres `lpad(s, len, '0')`. -/
def padStartZeros (l : List Char) (len : Nat) : List Char :=
  List.replicate (len - l.length) '0' ++ l

/-- JS `String.prototype.padEnd(len, '0')`. -/
def padEndZeros (l : List Char) (len : Nat) : List Char :=
  l ++ List.replicate (len - l.length) '0'

/-- The UTF-16 code units of a Lean string (faithful for ASCII/BMP text). -/
def codeUnits (s : String) : List Nat := s.data.map Char.toNat

/-! ## Identity resolver, TypeScript implementation

From `generateConsistentUUID` in both edge functions (the two copies are
textually identical).  The JS hash update is
`hash = ((hash << 5) - hash) + char; hash = hash & hash;` where `<<` and `&`
coerce through signed 32-bit integers, so the state is a 32-bit residue:
tracking the unsigned residue `u`, one step is `u' = (31*u + c) mod 2^32`.
`Math.abs` on the final signed value of `u` is `u` if `u < 2^31` else
`2^32 - u`. -/

def NAMESPACE_UUID : String := "1b671a64-40d5-491e-99b0-da01ff1f3341"

/-- One step of the JS rolling hash, on unsigned 32-bit residues. -/
def tsHashStep (h : Nat) (c : Nat) : Nat := (31 * h + c) % 2 ^ 32

/-- The JS rolling hash of a code-unit sequence (unsigned 32-bit residue). -/
def tsHash (cs : List Nat) : Nat := cs.foldl tsHashStep 0

/-- JS `Math.abs` applied to the signed reading of a 32-bit residue. -/
def tsAbs (u : Nat) : Nat := if u < 2 ^ 31 then u else 2 ^ 32 - u

/-- `generateConsistentUUID` (TypeScript), on the code units of `userId`.
The `catch` fallback to `crypto.randomUUID()` is dead code — the `try` body
is total — so the embedding is the pure function. -/
def generateConsistentUUID (userId : List Nat) : List Char :=
  let input := userId ++ codeUnits NAMESPACE_UUID
  let hex := padStartZeros (jsToString16 (tsAbs (tsHash input))) 8
  hex.take 8 ++ ['-'] ++ hex.take 4 ++ ['-', '4'] ++ (hex.drop 1).take 3
    ++ ['-', 'a'] ++ hex.take 3 ++ ['-'] ++ padEndZeros (hex.take 12) 12

/-! ## Identity resolver, SQL implementation

From `public.generateConsistentUUID` in the migration file.  Differences in
the source text: the update is
`hash_val := ((hash_val << 5) - hash_val + char_code) & 2147483647`, i.e. the
value is masked to the low 31 bits at every step (`x & 0x7FFFFFFF = x mod
2^31` in two's complement); Postgres `int4` addition/subtraction raises an
error on overflow (modelled as `none`, which the procedure's `EXCEPTION`
block turns into a random UUID); and the last group is
`lpad(substring(hex_str from 1 for 12), 12, '0')`, a left-pad.  The
procedure's concatenation omits the fourth hyphen, and the result is cast
`::UUID`, which Postgres accepts (hyphens may be omitted) and renders in the
normal 8-4-4-4-12 lowercase form; `sqlGenerateConsistentUUID` returns that
normalized rendering. -/

/-- Signed reading of an unsigned 32-bit residue (Postgres `int4` `<<`
wraps). -/
def sv32 (u : Nat) : Int := if u < 2 ^ 31 then (u : Int) else (u : Int) - 2 ^ 32

/-- One step of the SQL hash: `((h << 5) - h + c) & 2147483647`, with
Postgres `int4` overflow on the intermediate sums modelled as `none`. -/
def sqlHashStep (h : Nat) (c : Nat) : Option Nat :=
  let shifted : Int := sv32 ((32 * h) % 2 ^ 32)
  let t1 : Int := shifted - (h : Int)
  if t1 < -(2 ^ 31) ∨ 2 ^ 31 ≤ t1 then none
  else
    let t2 : Int := t1 + (c : Int)
    if t2 < -(2 ^ 31) ∨ 2 ^ 31 ≤ t2 then none
    else some (t2 % (2 ^ 31 : Int)).toNat

/-- The SQL rolling hash of a code-unit sequence. -/
def sqlHash (cs : List Nat) : Option Nat := cs.foldlM sqlHashStep 0

/-- Regroup 32 hex digits into the normalized 8-4-4-4-12 UUID rendering
(Postgres output form after the `::UUID` cast). -/
def uuidRegroup (d : List Char) : List Char :=
  d.take 8 ++ ['-'] ++ (d.drop 8).take 4 ++ ['-'] ++ (d.drop 12).take 4
    ++ ['-'] ++ (d.drop 16).take 4 ++ ['-'] ++ d.drop 20

/-- `public.generateConsistentUUID` (SQL), on the code points of `user_id`;
`none` models the overflow-exception path (which falls back to
`gen_random_uuid()`, a non-deterministic value). -/
def sqlGenerateConsistentUUID (userId : List Nat) : Option (List Char) :=
  (sqlHash (userId ++ codeUnits NAMESPACE_UUID)).map fun h =>
    let hex := padStartZeros (jsToString16 h) 8
    uuidRegroup (hex.take 8 ++ hex.take 4 ++ ['4'] ++ (hex.drop 1).take 3
      ++ ['a'] ++ hex.take 3 ++ padStartZeros (hex.take 12) 12)

/-! ## UUID-shaped grammar (for the spec's testable property on `resolve`) -/

/-- Lowercase hex digit character. -/
def isHexChar (c : Char) : Bool :=
  (('0' ≤ c ∧ c ≤ '9') ∨ ('a' ≤ c ∧ c ≤ 'f') : Bool)

/-- The UUID-shaped grammar `xxxxxxxx-xxxx-4xxx-axxx-xxxxxxxxxxxx`: five hex
groups of lengths 8, 4, 4, 4, 12, group 3 starting with `'4'` and group 4
starting with `'a'`. -/
def UuidShaped (s : List Char) : Prop :=
  ∃ g1 g2 g3 g4 g5 : List Char,
    s = g1 ++ '-' :: (g2 ++ '-' :: (g3 ++ '-' :: (g4 ++ '-' :: g5))) ∧
    g1.length = 8 ∧ g2.length = 4 ∧ g3.length = 4 ∧ g4.length = 4 ∧
    g5.length = 12 ∧
    (∀ c ∈ g1 ++ g2 ++ g3 ++ g4 ++ g5, isHexChar c = true) ∧
    g3.head? = some '4' ∧ g4.head? = some 'a'

/-! ## Assessment scorer

From the `evaluateAssessment` branch of
`supabase/functions/enhanced-learning-service/index.ts` (lines 369–396).
`Math.round((correctAnswers / totalQuestions) * 100)` is round-half-up of the
exact rational `100 * correct / total`, i.e. `(200*c + t) / (2*t)` in natural
division. -/

/-- A row of the `course_questions` table (the fields the scorer reads). -/
structure QuestionRow where
  id : Nat
  course_id : String
  correct_answer : String
  is_active : Bool
  order_index : Nat
deriving DecidableEq, Repr

/-- A submitted answer `{questionId, selectedAnswer}`. -/
structure Answer where
  questionId : Nat
  selectedAnswer : String
deriving DecidableEq, Repr

/-- One element of the `evaluatedAnswers` array. -/
structure EvaluatedAnswer where
  questionId : Nat
  selectedAnswer : String
  isCorrect : Bool
  correctAnswer : Option String
deriving DecidableEq, Repr

/-- `question && answer.selectedAnswer === question.correct_answer` for the
first canonical question found with the submitted id. -/
def markCorrect (qs : List QuestionRow) (a : Answer) : Bool :=
  match qs.find? (fun q => q.id = a.questionId) with
  | some q => a.selectedAnswer = q.correct_answer
  | none => false

/-- The `answers.map(...)` body building `evaluatedAnswers`. -/
def evaluateAnswers (qs : List QuestionRow) (answers : List Answer) :
    List EvaluatedAnswer :=
  answers.map fun a =>
    { questionId := a.questionId
      selectedAnswer := a.selectedAnswer
      isCorrect := markCorrect qs a
      correctAnswer :=
        (qs.find? (fun q => q.id = a.questionId)).map (·.correct_answer) }

/-- `correctAnswers`: how many submitted answers were marked correct. -/
def correctCount (qs : List QuestionRow) (answers : List Answer) : Nat :=
  answers.countP (markCorrect qs)

/-! ### IEEE binary64 model of the score computation

`Math.round((correctAnswers / totalQuestions) * 100)` is computed by the
program in IEEE-754 binary64 ("double") arithmetic: the division and the
multiplication are each correctly rounded to the nearest double (ties to
even), and `Math.round` returns the integer nearest to the resulting double
value (ties toward `+∞`, per the ES specification).  Doubles are modelled
exactly as rational numbers; all values arising here (`c/t` with `t ≥ 1`,
then `× 100`) lie far inside the normal range, where rounding a positive
rational `q` to a double means taking the `e : ℤ` with `2^e ≤ q < 2^(e+1)`
and rounding `q · 2^(52-e)` to a 53-bit integer, ties to even. -/

/-- Base-2 logarithm by structural recursion on a fuel bound
(`fuel ≥ n` makes the fuel irrelevant; same value as `Nat.log2`). -/
def log2Aux : Nat → Nat → Nat
  | 0, _ => 0
  | fuel + 1, n => if 2 ≤ n then log2Aux fuel (n / 2) + 1 else 0

/-- `⌊log₂ n⌋` for `n ≥ 1`: the unique `l` with `2^l ≤ n < 2^(l+1)`. -/
def nlog2 (n : Nat) : Nat := log2Aux n n

/-- Round the exact fraction `A / B` (`B ≥ 1`) to the nearest integer,
ties to even (the IEEE default rounding of a scaled significand). -/
def rneNat (A B : Nat) : Nat :=
  if 2 * (A % B) < B then A / B
  else if B < 2 * (A % B) then A / B + 1
  else if (A / B) % 2 = 0 then A / B else A / B + 1

/-- The binary exponent of `a / b` (for `a, b ≥ 1`): the `e : ℤ` with
`2^e ≤ a/b < 2^(e+1)`.  For `b ≤ a` this is `nlog2 (a / b)`; for `a < b`
it is `-k` for the least `k` with `b ≤ a * 2^k`, which is `nlog2 (b / a)`
or one more. -/
def fexp (a b : Nat) : Int :=
  if b ≤ a then (nlog2 (a / b) : Int)
  else
    if b ≤ a * 2 ^ nlog2 (b / a) then -(nlog2 (b / a) : Int)
    else -(nlog2 (b / a) + 1 : Int)

/-- The 53-bit significand of the IEEE binary64 value nearest to `a / b`
(`a, b ≥ 1`, round-to-nearest, ties-to-even): with `e := fexp a b`, the
double is `flSig a b * 2^(e - 52)`.  The scaled value `(a/b) * 2^(52-e)`
lies in `[2^52, 2^53)` and is written below as one exact fraction — exactly
one of the two `toNat` exponents is non-zero. -/
def flSig (a b : Nat) : Nat :=
  rneNat (a * 2 ^ ((52 - fexp a b).toNat)) (b * 2 ^ ((fexp a b - 52).toNat))

/-- Numerator of the exact product `(c/t rounded to a double) * 100`: the
step-1 double is `flSig c t * 2^(fexp c t - 52)`, so the product is the
fraction `prodNum c t / prodDen c t` (exactly one of the two power-of-two
factors is non-trivial). -/
def prodNum (c t : Nat) : Nat :=
  100 * flSig c t * 2 ^ ((fexp c t - 52).toNat)

/-- Denominator of the exact product `(c/t rounded to a double) * 100`. -/
def prodDen (c t : Nat) : Nat := 2 ^ ((52 - fexp c t).toNat)

/-- JS `Math.round` on the exact double `n · 2^(e-52)`: the nearest
integer, ties toward `+∞`, i.e. `⌊y + 1/2⌋` — the value itself when
`e ≥ 52`, otherwise `(2n + 2^K) / 2^(K+1)` in natural division with
`K := 52 - e`. -/
def jsRoundDyadic (n : Nat) (e : Int) : Nat :=
  if 52 ≤ e then n * 2 ^ ((e - 52).toNat)
  else (2 * n + 2 ^ ((52 - e).toNat)) / 2 ^ ((52 - e).toNat + 1)

/-- `Math.round((c / t) * 100)` exactly as the program computes it (for
`t ≥ 1`): `c / t` is correctly rounded to a binary64 double; the product
with `100` (the exact fraction `prodNum / prodDen`) is correctly rounded to
a double again; and JS `Math.round` takes the nearest integer, ties toward
`+∞`. -/
def jsScore (c t : Nat) : Nat :=
  if c = 0 ∨ t = 0 then 0
  else jsRoundDyadic (flSig (prodNum c t) (prodDen c t))
    (fexp (prodNum c t) (prodDen c t))

/-- The spec's §4.3 formula `round(100 * c / t)` on exact rationals
(round-half-up: `(200c + t) / (2t)`), kept only for comparison with the
program's floating-point computation `jsScore`; the two differ on
exact-half cases that binary64 arithmetic lands just below the half
(e.g. `c = 23`, `t = 40`: the program returns 57, this formula 58). -/
def specRoundPercent (c t : Nat) : Nat := (200 * c + t) / (2 * t)

/-- The `assessmentResult` object. -/
structure AssessmentResult where
  totalQuestions : Nat
  correctAnswers : Nat
  score : Nat
  passed : Bool
  answers : List EvaluatedAnswer
deriving DecidableEq, Repr

/-- The scoring section of `evaluateAssessment` (lines 369–396). -/
def scoreAssessment (qs : List QuestionRow) (answers : List Answer) :
    AssessmentResult :=
  let c := correctCount qs answers
  let score := jsScore c qs.length
  { totalQuestions := qs.length
    correctAnswers := c
    score := score
    passed := 70 ≤ score
    answers := evaluateAnswers qs answers }

/-! ## Calendar dates and `setMonth(getMonth() + 1)`

`verify_payment` computes the subscription period end with JS
`subscriptionEnd.setMonth(subscriptionEnd.getMonth() + 1)`, which bumps the
month, carries into the year, and normalizes a day-of-month overflow into the
following month (Jan 31 → Mar 3, non-leap). -/

/-- A calendar date; `month` is 0-based as in JS `Date`. -/
structure Date where
  year : Nat
  month : Nat
  day : Nat
deriving DecidableEq, Repr

def isLeapYear (y : Nat) : Bool :=
  ((y % 4 = 0 ∧ y % 100 ≠ 0) ∨ y % 400 = 0 : Bool)

/-- Days in a (0-based) month of a year. -/
def daysInMonth (y m : Nat) : Nat :=
  if m = 1 then (if isLeapYear y then 29 else 28)
  else if m = 3 ∨ m = 5 ∨ m = 8 ∨ m = 10 then 30
  else 31

/-- JS `d.setMonth(d.getMonth() + 1)` with day-overflow normalization (the
day never exceeds 31, so at most one carry step is needed). -/
def addOneMonth (d : Date) : Date :=
  let m := d.month + 1
  let y := d.year + m / 12
  let m := m % 12
  if d.day ≤ daysInMonth y m then ⟨y, m, d.day⟩
  else
    let m2 := m + 1
    ⟨y + m2 / 12, m2 % 12, d.day - daysInMonth y m⟩

/-! ## `verify_payment` workflow

From `supabase/functions/enhanced-razorpay-payment/index.ts`.  Storage is a
pair of tables; the signature oracle `hmac` stands for
`crypto.subtle.sign('HMAC', key(secret), data)` (HMAC-SHA256, external
WebCrypto code) and returns the digest bytes, which the handler hex-encodes
itself (lines 136–138); the `get_or_create_user_profile` stored procedure is
the oracle `profileRpc` (its failure is swallowed by the handler's inner
`try`/`catch`).  Storage faults are injected per call site: `none` means the
call succeeds, `some msg` that it fails with message `msg`. -/

/-- A row of the `payments` table as inserted by the handler. -/
structure PaymentRow where
  user_id : List Char
  razorpay_order_id : String
  razorpay_payment_id : String
  razorpay_signature : String
  amount : Int
  currency : String
  plan_type : String
  status : String
deriving DecidableEq, Repr

/-- A row of the `user_subscriptions` table as upserted by the handler. -/
structure SubscriptionRow where
  user_id : List Char
  plan_type : String
  status : String
  current_period_start : Date
  current_period_end : Date
  was_granted : Bool
deriving DecidableEq, Repr

/-- A row of the `profiles` table (the fields this development reads). -/
structure ProfileRow where
  id : List Char
  full_name : String
  email : String
deriving DecidableEq, Repr

/-- Storage state touched by the payment handler. -/
structure PaymentDB where
  profiles : List ProfileRow
  payments : List PaymentRow
  subscriptions : List SubscriptionRow
deriving DecidableEq, Repr

/-- `upsert(..., { onConflict: 'user_id' })`: replace the row with the same
`user_id`, or append. -/
def upsertSubscription (l : List SubscriptionRow) (row : SubscriptionRow) :
    List SubscriptionRow :=
  if l.any (fun r => r.user_id = row.user_id) then
    l.map (fun r => if r.user_id = row.user_id then row else r)
  else l ++ [row]

/-- Injected storage faults for one `verify_payment` request. -/
structure PaymentFaults where
  paymentInsert : Option String
  subscriptionUpsert : Option String
deriving Repr

/-- The `verify_payment` request payload fields the handler reads; a JS
falsy (absent or empty) string is modelled as `""`. -/
structure VerifyPaymentRequest where
  razorpay_order_id : String
  razorpay_payment_id : String
  razorpay_signature : String
  plan_type : String
  amount : Int
  currency : String
  user_email : String
  clerkUserId : String
deriving Repr

/-- The HTTP envelope `serve` produces: the success body, or the
`{error, details}` body of the `catch` branch (status 400). -/
inductive PaymentResponse where
  | success (message : String)
  | failure (error : String) (details : String)
deriving DecidableEq, Repr

/-- Hex-encode digest bytes as the handler does:
`Array.from(new Uint8Array(sig)).map(b => b.toString(16).padStart(2, '0')).join('')`. -/
def hexEncodeBytes (bs : List Nat) : List Char :=
  (bs.map fun b => padStartZeros (jsToString16 b) 2).flatten

/-- The best-effort `get_or_create_user_profile` call: apply the stored
procedure oracle; on error keep the profiles unchanged (the handler catches
and continues). -/
def ensureProfiles
    (profileRpc : List ProfileRow → Except String (List ProfileRow))
    (l : List ProfileRow) : List ProfileRow :=
  match profileRpc l with
  | .ok l' => l'
  | .error _ => l

/-- The `payments` row the handler inserts (lines 169–180). -/
def paymentRowOf (req : VerifyPaymentRequest) : PaymentRow :=
  { user_id := generateConsistentUUID (codeUnits req.clerkUserId)
    razorpay_order_id := req.razorpay_order_id
    razorpay_payment_id := req.razorpay_payment_id
    razorpay_signature := req.razorpay_signature
    amount := req.amount
    currency := req.currency
    plan_type := req.plan_type
    status := "completed" }

/-- The `user_subscriptions` row the handler upserts (lines 193–205). -/
def subscriptionRowOf (req : VerifyPaymentRequest) (now : Date) :
    SubscriptionRow :=
  { user_id := generateConsistentUUID (codeUnits req.clerkUserId)
    plan_type := req.plan_type
    status := "active"
    current_period_start := now
    current_period_end := addOneMonth now
    was_granted := false }

/-- The part of the `verify_payment` branch after the signature gate:
best-effort profile ensure, `payments` insert (fatal on failure),
`user_subscriptions` upsert (fatal on failure), success envelope. -/
def verifyPaymentAfterSignature
    (profileRpc : List ProfileRow → Except String (List ProfileRow))
    (now : Date) (faults : PaymentFaults)
    (req : VerifyPaymentRequest) (db : PaymentDB) :
    PaymentResponse × PaymentDB :=
  -- best-effort profile ensure: a failure is caught and processing continues
  let db := { db with profiles := ensureProfiles profileRpc db.profiles }
  match faults.paymentInsert with
  | some msg =>
    (.failure ("Failed to store payment record: " ++ msg)
      "Enhanced payment processing failed", db)
  | none =>
    let db := { db with payments := db.payments ++ [paymentRowOf req] }
    match faults.subscriptionUpsert with
    | some msg =>
      (.failure ("Failed to manage subscription: " ++ msg)
        "Enhanced payment processing failed", db)
    | none =>
      let db := { db with subscriptions :=
        upsertSubscription db.subscriptions (subscriptionRowOf req now) }
      (.success "Payment verified and subscription activated", db)

/-- The `verify_payment` branch plus `serve`'s `catch` (lines 93–238 of the
payment function).  `hmac secret msg` are the HMAC-SHA256 digest bytes;
`profileRpc` is the `get_or_create_user_profile` stored procedure (`.error`
models `profileError`, swallowed); `now` is the request's clock reading. -/
def verifyPayment (hmac : String → String → List Nat)
    (profileRpc : List ProfileRow → Except String (List ProfileRow))
    (secret : String) (now : Date) (faults : PaymentFaults)
    (req : VerifyPaymentRequest) (db : PaymentDB) :
    PaymentResponse × PaymentDB :=
  if req.user_email = "" ∨ req.clerkUserId = "" then
    (.failure "Missing user email or ID in request"
      "Enhanced payment processing failed", db)
  else
    if String.mk (hexEncodeBytes (hmac secret
        (req.razorpay_order_id ++ "|" ++ req.razorpay_payment_id))) ≠
        req.razorpay_signature then
      (.failure "Invalid payment signature"
        "Enhanced payment processing failed", db)
    else
      verifyPaymentAfterSignature profileRpc now faults req db

/-! ## Learning service storage model

From `supabase/functions/enhanced-learning-service/index.ts` and the
`update_course_certificate_management` stored procedure in the migration
file.  Row ids that the database would generate are drawn from a `nextId`
counter in the state. -/

/-- JS truthiness of an optional string field (absent or `""` is falsy). -/
def jsTruthyS : Option String → Bool
  | none => false
  | some s => s ≠ ""

/-- JS truthiness of an optional numeric field (absent or `0` is falsy). -/
def jsTruthyN : Option Nat → Bool
  | none => false
  | some n => n ≠ 0

/-- A row of the `user_learning` table. -/
structure LearningRow where
  id : Nat
  user_id : List Char
  course_id : String
  progress : List (String × Bool)
  completed_modules_count : Nat
  total_modules_count : Nat
  assessment_attempted : Bool
  assessment_passed : Bool
  assessment_score : Option Nat
  last_assessment_score : Nat
  is_completed : Bool
  assessment_completed_at : Option Date
deriving DecidableEq, Repr

/-- The denormalized `completion_data` snapshot embedded in a credential. -/
structure CompletionData where
  course_id : String
  course_name : String
  completion_date : Date
  score : Nat
  passing_score : Nat
  user_name : String
deriving DecidableEq, Repr

/-- A row of the `user_certificates` table. -/
structure UserCertRow where
  id : Nat
  user_id : List Char
  clerk_user_id : Option String
  certificate_id : Nat
  course_id : String
  verification_code : String
  score : Nat
  completion_data : CompletionData
  is_active : Bool
deriving DecidableEq, Repr

/-- A row of the `certificates` template table. -/
structure CertTemplateRow where
  id : Nat
  title : String
  description : String
  certificate_type : String
  is_active : Bool
  auto_issue : Bool
  min_score : Nat
deriving DecidableEq, Repr

/-- A row of `course_certificate_management` (the completion-tracking record
written by the `update_course_certificate_management` stored procedure). -/
structure CertMgmtRow where
  clerk_user_id : String
  course_id : String
  course_name : String
  course_complete : Bool
  assessment_pass : Bool
  assessment_score : Nat
  completion_date : Option Date
deriving DecidableEq, Repr

/-- Storage state touched by the learning service. -/
structure LearnDB where
  profiles : List ProfileRow
  course_questions : List QuestionRow
  user_learning : List LearningRow
  user_certificates : List UserCertRow
  certificates : List CertTemplateRow
  cert_mgmt : List CertMgmtRow
  nextId : Nat
deriving DecidableEq, Repr

/-- `update_course_certificate_management` (SQL): insert with
`ON CONFLICT (clerk_user_id, course_id) DO UPDATE`. -/
def upsertCertMgmt (l : List CertMgmtRow) (row : CertMgmtRow) :
    List CertMgmtRow :=
  if l.any (fun r => r.clerk_user_id = row.clerk_user_id ∧
      r.course_id = row.course_id) then
    l.map (fun r =>
      if r.clerk_user_id = row.clerk_user_id ∧ r.course_id = row.course_id
      then row else r)
  else l ++ [row]

/-! ## Credential issuer (`generateCertificate`) -/

/-- Parameters of `generateCertificate`. -/
structure CertParams where
  userId : List Char
  name : String
  courseId : String
  courseName : String
  score : Nat
  clerkUserId : Option String
deriving Repr

/-- Injected faults for one `generateCertificate` call. -/
structure CertFaults where
  certMgmtRpc : Option String
  templateInsert : Option String
  certInsert : Option String
deriving Repr

/-- The `{ success, certificateId?, message? }` result of
`generateCertificate`. -/
structure CertResult where
  success : Bool
  certificateId : Option Nat
  message : Option String
deriving DecidableEq, Repr

/-- Step 2 of issuance: the best-effort
`update_course_certificate_management` RPC (run only when a `clerkUserId`
was supplied; a failure is swallowed). -/
def certStep2 (now : Date) (faults : CertFaults) (p : CertParams)
    (db : LearnDB) : LearnDB :=
  match p.clerkUserId with
  | none => db
  | some cid =>
    match faults.certMgmtRpc with
    | some _ => db
    | none =>
      let mgmtRow : CertMgmtRow :=
        { clerk_user_id := cid
          course_id := p.courseId
          course_name := p.courseName
          course_complete := true
          assessment_pass := 70 ≤ p.score
          assessment_score := p.score
          completion_date := if 70 ≤ p.score then some now else none }
      { db with cert_mgmt := upsertCertMgmt db.cert_mgmt mgmtRow }

/-- The existing-credential filter of step 3
(`user_id = …, course_id = …, is_active = true`). -/
def certMatches (userId : List Char) (courseId : String)
    (r : UserCertRow) : Bool :=
  r.user_id = userId ∧ r.course_id = courseId ∧ r.is_active

/-- Step 4 of issuance: `.single()` on the default completion template
(exactly one active row, otherwise `certError`), falling back to creating a
default template; `none` models the create-failure early return. -/
def certTemplateStep (faults : CertFaults) (db : LearnDB) :
    Option (CertTemplateRow × LearnDB) :=
  match db.certificates.filter (fun t =>
      t.is_active ∧ t.certificate_type = "completion") with
  | [t] => some (t, db)
  | _ =>
    match faults.templateInsert with
    | some _ => none
    | none =>
      let t : CertTemplateRow :=
        { id := db.nextId
          title := "Course Completion Certificate"
          description := "Certificate of successful course completion"
          certificate_type := "completion"
          is_active := true
          auto_issue := true
          min_score := 70 }
      some (t, { db with certificates := db.certificates ++ [t]
                         nextId := db.nextId + 1 })

/-- The `user_certificates` row of step 6. -/
def certRowOf (now : Date) (verificationCode : String) (p : CertParams)
    (templateId : Nat) (rowId : Nat) : UserCertRow :=
  { id := rowId
    user_id := p.userId
    clerk_user_id := p.clerkUserId
    certificate_id := templateId
    course_id := p.courseId
    verification_code := verificationCode
    score := p.score
    completion_data :=
      { course_id := p.courseId
        course_name := p.courseName
        completion_date := now
        score := p.score
        passing_score := 70
        user_name := p.name }
    is_active := true }

/-- `generateCertificate` (learning service, lines 33–158).  `now` is the
clock reading used for the completion snapshot, `verificationCode` stands
for the `CERT-` + timestamp + random-base36 code of line 120.  A fault in
the step-2 completion-tracking RPC is swallowed; a fault inserting the
`user_certificates` row is thrown and caught by the function's own `catch`,
which turns it into `{ success: false, message }`. -/
def generateCertificate (now : Date) (verificationCode : String)
    (faults : CertFaults) (p : CertParams) (db : LearnDB) :
    CertResult × LearnDB :=
  if p.score < 70 then
    ({ success := false, certificateId := none
       message := some "Score below passing threshold" }, db)
  else
    -- step 2 (best-effort, swallowed) then step 3 (existing-credential check)
    match (certStep2 now faults p db).user_certificates.find?
        (certMatches p.userId p.courseId) with
    | some existingCert =>
      ({ success := true, certificateId := some existingCert.id
         message := some "Certificate already exists" },
       certStep2 now faults p db)
    | none =>
      match certTemplateStep faults (certStep2 now faults p db) with
      | none =>
        ({ success := false, certificateId := none
           message := some "Failed to create certificate template" },
         certStep2 now faults p db)
      | some (defaultCertificate, db') =>
        -- step 6: insert the credential row
        match faults.certInsert with
        | some msg =>
          ({ success := false, certificateId := none
             message := some msg }, db')
        | none =>
          ({ success := true, certificateId := some db'.nextId
             message := some "Certificate generated successfully" },
           { db' with
              user_certificates := db'.user_certificates ++
                [certRowOf now verificationCode p defaultCertificate.id
                  db'.nextId],
              nextId := db'.nextId + 1 })

/-! ## Learning service orchestrator (`Deno.serve` handler)

The handler's `try`/`catch` produces `{ success: true, data }` on normal
completion and `{ success: false, error }` (status 400) when any step threw.
Each recognized action is embedded as its own function over the shared
state. -/

/-- The response envelope of the learning service. -/
inductive Envelope (α : Type) where
  | ok (data : α)
  | fail (error : String)
deriving DecidableEq, Repr

/-- Stable insertion sort by `order_index` (the query's
`ORDER BY order_index`). -/
def insertByOrderIndex (q : QuestionRow) : List QuestionRow → List QuestionRow
  | [] => [q]
  | r :: rs =>
    if r.order_index ≤ q.order_index then r :: insertByOrderIndex q rs
    else q :: r :: rs

/-- Sort question rows by `order_index`. -/
def sortByOrderIndex (l : List QuestionRow) : List QuestionRow :=
  l.foldr insertByOrderIndex []

/-- Injected faults for one `fetch` request. -/
structure FetchFaults where
  selectLearning : Option String
  createLearning : Option String
deriving Repr

/-- The fresh `user_learning` row created by `fetch` on a miss
(lines 224–236). -/
def newFetchRow (uuid : List Char) (data_courseId : Option String)
    (totalModules : Option Nat) (rowId : Nat) : LearningRow :=
  { id := rowId
    user_id := uuid
    course_id := (data_courseId.getD "")
    progress := []
    completed_modules_count := 0
    total_modules_count := totalModules.getD 0
    assessment_attempted := false
    assessment_passed := false
    assessment_score := none
    last_assessment_score := 0
    is_completed := false
    assessment_completed_at := none }

/-- The `fetch` action (lines 194–255) wrapped in the handler's
`try`/`catch`.  `data_courseId` is `data?.courseId`; `totalModules` is the
request field of the same name; a create failure is swallowed and `result`
becomes `null` (`none`). -/
def fetchAction (profileRpc : List ProfileRow → Except String (List ProfileRow))
    (faults : FetchFaults) (clerkUserId : String)
    (data_courseId : Option String) (totalModules : Option Nat)
    (db : LearnDB) : Envelope (Option LearningRow) × LearnDB :=
  if clerkUserId = "" then (.fail "Clerk user ID is required", db)
  else
    match faults.selectLearning with
    | some msg =>
      (.fail msg, { db with profiles := ensureProfiles profileRpc db.profiles })
    | none =>
      if db.user_learning.find? (fun r =>
            r.user_id = generateConsistentUUID (codeUnits clerkUserId) ∧
            some r.course_id = data_courseId) = none ∧
          jsTruthyN totalModules ∧ jsTruthyS data_courseId then
        match faults.createLearning with
        | some _ =>
          (.ok none,
           { db with profiles := ensureProfiles profileRpc db.profiles })
        | none =>
          (.ok (some (newFetchRow
              (generateConsistentUUID (codeUnits clerkUserId))
              data_courseId totalModules db.nextId)),
           { db with
              profiles := ensureProfiles profileRpc db.profiles,
              user_learning := db.user_learning ++
                [newFetchRow (generateConsistentUUID (codeUnits clerkUserId))
                  data_courseId totalModules db.nextId],
              nextId := db.nextId + 1 })
      else
        (.ok (db.user_learning.find? (fun r =>
            r.user_id = generateConsistentUUID (codeUnits clerkUserId) ∧
            some r.course_id = data_courseId)),
         { db with profiles := ensureProfiles profileRpc db.profiles })

/-- Injected faults for one `evaluateAssessment` request. -/
structure EvalFaults where
  selectQuestions : Option String
  learningWrite : Option String
  certFaults : CertFaults
deriving Repr

/-- The `data` payload assembled at the end of `evaluateAssessment`. -/
structure EvalData where
  totalQuestions : Nat
  correctAnswers : Nat
  score : Nat
  passed : Bool
  answers : List EvaluatedAnswer
  saved : Bool
  certificateGenerated : Bool
  certificateId : Option Nat
deriving DecidableEq, Repr

/-- The canonical-question fetch: active rows of the course, ordered by
`order_index`. -/
def questionsFor (data_courseId : Option String) (db : LearnDB) :
    List QuestionRow :=
  sortByOrderIndex (db.course_questions.filter
    (fun q => some q.course_id = data_courseId ∧ q.is_active))

/-- The assessment fields written into an existing `user_learning` row
(`assessmentData` spread of lines 399–407 plus the preserved fields). -/
def updatedLearningRow (now : Date) (totalModules : Option Nat)
    (r : AssessmentResult) (ex : LearningRow) : LearningRow :=
  { ex with
     assessment_attempted := true
     assessment_passed := r.passed
     assessment_score := some r.score
     last_assessment_score := r.score
     assessment_completed_at := some now
     is_completed := r.passed
     total_modules_count := totalModules.getD 0 }

/-- The fresh `user_learning` row inserted when no record exists
(lines 433–441). -/
def newAssessmentRow (now : Date) (uuid : List Char)
    (data_courseId : Option String) (totalModules : Option Nat)
    (r : AssessmentResult) (rowId : Nat) : LearningRow :=
  { id := rowId
    user_id := uuid
    course_id := (data_courseId.getD "")
    progress := []
    completed_modules_count := 0
    total_modules_count := totalModules.getD 0
    assessment_attempted := true
    assessment_passed := r.passed
    assessment_score := some r.score
    last_assessment_score := r.score
    is_completed := r.passed
    assessment_completed_at := some now }

/-- Saving the assessment results: update the existing `user_learning` row
or insert a fresh one; a storage fault here is fatal (lines 409–447). -/
def learningWriteStep (now : Date) (uuid : List Char)
    (data_courseId : Option String) (totalModules : Option Nat)
    (r : AssessmentResult) (lwFault : Option String) (db : LearnDB) :
    Except String LearnDB :=
  match db.user_learning.find? (fun row =>
      row.user_id = uuid ∧ some row.course_id = data_courseId) with
  | some ex =>
    match lwFault with
    | some msg => .error ("Failed to update assessment results: " ++ msg)
    | none =>
      .ok { db with user_learning := db.user_learning.map (fun row =>
        if row.id = ex.id then updatedLearningRow now totalModules r ex
        else row) }
  | none =>
    match lwFault with
    | some msg => .error ("Failed to save assessment results: " ++ msg)
    | none =>
      .ok { db with
             user_learning := db.user_learning ++
               [newAssessmentRow now uuid data_courseId totalModules r
                 db.nextId],
             nextId := db.nextId + 1 }

/-- The conditional certificate phase (lines 449–482): only when the
assessment passed and a course display name was supplied; requires a
profile with a non-empty `full_name`; `generateCertificate`'s own failures
never escape. -/
def certPhase (now : Date) (verificationCode : String) (cf : CertFaults)
    (clerkUserId : String) (uuid : List Char)
    (data_courseId data_courseName : Option String)
    (r : AssessmentResult) (db : LearnDB) : CertResult × LearnDB :=
  if r.passed ∧ jsTruthyS data_courseName then
    match db.profiles.find? (fun pr => pr.id = uuid) with
    | some profileData =>
      if profileData.full_name ≠ "" then
        generateCertificate now verificationCode cf
          { userId := uuid
            name := profileData.full_name
            courseId := data_courseId.getD ""
            courseName := data_courseName.getD ""
            score := r.score
            clerkUserId := some clerkUserId } db
      else
        ({ success := false, certificateId := none
           message := some "No profile data available" }, db)
    | none =>
      ({ success := false, certificateId := none
         message := some "No profile data available" }, db)
  else
    ({ success := false, certificateId := none
       message := some "Not applicable" }, db)

/-- The `evaluateAssessment` action (lines 333–490) wrapped in the handler's
`try`/`catch`.  `questionsPresent` is the truthiness of the request's
`questions` field (only used by the validation check); `answers = none`
models an absent `answers` field. -/
def evaluateAssessmentAction
    (profileRpc : List ProfileRow → Except String (List ProfileRow))
    (now : Date) (verificationCode : String) (faults : EvalFaults)
    (clerkUserId : String) (questionsPresent : Bool)
    (answers : Option (List Answer)) (data_courseId : Option String)
    (data_courseName : Option String) (totalModules : Option Nat)
    (db : LearnDB) : Envelope EvalData × LearnDB :=
  if clerkUserId = "" then (.fail "Clerk user ID is required", db)
  else
    if ¬questionsPresent ∨ answers = none ∨ ¬jsTruthyS data_courseId then
      (.fail
        "Questions, answers, and courseId are required for assessment evaluation",
        db)
    else
      match faults.selectQuestions with
      | some msg =>
        (.fail ("Failed to fetch course questions: " ++ msg),
         { db with profiles := ensureProfiles profileRpc db.profiles })
      | none =>
        if questionsFor data_courseId db = [] then
          (.fail "No questions found for this course",
           { db with profiles := ensureProfiles profileRpc db.profiles })
        else
          match learningWriteStep now
              (generateConsistentUUID (codeUnits clerkUserId)) data_courseId
              totalModules
              (scoreAssessment (questionsFor data_courseId db)
                (answers.getD []))
              faults.learningWrite
              { db with profiles := ensureProfiles profileRpc db.profiles } with
          | .error msg =>
            (.fail msg,
             { db with profiles := ensureProfiles profileRpc db.profiles })
          | .ok db1 =>
            (.ok
              { totalQuestions :=
                  (scoreAssessment (questionsFor data_courseId db)
                    (answers.getD [])).totalQuestions
                correctAnswers :=
                  (scoreAssessment (questionsFor data_courseId db)
                    (answers.getD [])).correctAnswers
                score :=
                  (scoreAssessment (questionsFor data_courseId db)
                    (answers.getD [])).score
                passed :=
                  (scoreAssessment (questionsFor data_courseId db)
                    (answers.getD [])).passed
                answers :=
                  (scoreAssessment (questionsFor data_courseId db)
                    (answers.getD [])).answers
                saved := true
                certificateGenerated :=
                  (certPhase now verificationCode faults.certFaults
                    clerkUserId (generateConsistentUUID (codeUnits clerkUserId))
                    data_courseId data_courseName
                    (scoreAssessment (questionsFor data_courseId db)
                      (answers.getD [])) db1).1.success
                certificateId :=
                  (certPhase now verificationCode faults.certFaults
                    clerkUserId (generateConsistentUUID (codeUnits clerkUserId))
                    data_courseId data_courseName
                    (scoreAssessment (questionsFor data_courseId db)
                      (answers.getD [])) db1).1.certificateId },
             (certPhase now verificationCode faults.certFaults
               clerkUserId (generateConsistentUUID (codeUnits clerkUserId))
               data_courseId data_courseName
               (scoreAssessment (questionsFor data_courseId db)
                 (answers.getD [])) db1).2)

/-! ## Lemmas about the identity resolver -/

theorem foldl_tsHashStep_lt (cs : List Nat) (acc : Nat) (h : acc < 2 ^ 32) :
    cs.foldl tsHashStep acc < 2 ^ 32 := by
  induction cs generalizing acc with
  | nil => simpa using h
  | cons c cs ih =>
    exact ih _ (Nat.mod_lt _ (by norm_num))

theorem tsHash_lt (cs : List Nat) : tsHash cs < 2 ^ 32 :=
  foldl_tsHashStep_lt cs 0 (by norm_num)

theorem tsAbs_lt (u : Nat) (h : u < 2 ^ 32) : tsAbs u < 2 ^ 32 := by
  unfold tsAbs
  split <;> omega

theorem hexDigitChar_isHex (n : Nat) (h : n < 16) :
    isHexChar (hexDigitChar n) = true := by
  interval_cases n <;> decide

theorem hexDigitsAux_length_le (fuel : Nat) :
    ∀ k n, n < 16 ^ k → (hexDigitsAux fuel n).length ≤ k := by
  induction fuel with
  | zero => intro k n _; simp [hexDigitsAux]
  | succ fuel ih =>
    intro k n hn
    by_cases h0 : n = 0
    · subst h0; simp [hexDigitsAux]
    · have hk : k ≠ 0 := by
        rintro rfl
        simp at hn
        omega
      obtain ⟨k, rfl⟩ : ∃ m, k = m + 1 := ⟨k - 1, by omega⟩
      rw [hexDigitsAux, if_neg h0]
      simp only [List.length_append, List.length_singleton]
      have hdiv : n / 16 < 16 ^ k := by
        rw [Nat.div_lt_iff_lt_mul (by norm_num)]
        calc n < 16 ^ (k + 1) := hn
        _ = 16 ^ k * 16 := by ring
      have := ih k (n / 16) hdiv
      omega

theorem hexDigits_length_le (k n : Nat) (hn : n < 16 ^ k) :
    (hexDigits n).length ≤ k :=
  hexDigitsAux_length_le n k n hn

theorem hexDigitsAux_mem_isHex (fuel : Nat) :
    ∀ n, ∀ c ∈ hexDigitsAux fuel n, isHexChar c = true := by
  induction fuel with
  | zero => intro n c hc; simp [hexDigitsAux] at hc
  | succ fuel ih =>
    intro n c hc
    rw [hexDigitsAux] at hc
    split at hc
    · simp at hc
    · rw [List.mem_append] at hc
      rcases hc with hc | hc
      · exact ih (n / 16) c hc
      · rw [List.mem_singleton] at hc
        subst hc
        exact hexDigitChar_isHex _ (Nat.mod_lt _ (by norm_num))

theorem hexDigits_mem_isHex (n : Nat) :
    ∀ c ∈ hexDigits n, isHexChar c = true :=
  hexDigitsAux_mem_isHex n n

theorem jsToString16_length_le (n : Nat) (h : n < 2 ^ 32) :
    (jsToString16 n).length ≤ 8 := by
  unfold jsToString16
  split
  · simp
  · exact hexDigits_length_le 8 n (by norm_num at h ⊢; omega)

theorem jsToString16_mem_isHex (n : Nat) :
    ∀ c ∈ jsToString16 n, isHexChar c = true := by
  unfold jsToString16
  split
  · intro c hc
    rw [List.mem_singleton] at hc
    subst hc; decide
  · exact hexDigits_mem_isHex n

theorem padStartZeros_length (l : List Char) (len : Nat) (h : l.length ≤ len) :
    (padStartZeros l len).length = len := by
  simp [padStartZeros]
  omega

theorem padStartZeros_mem (l : List Char) (len : Nat) :
    ∀ c ∈ padStartZeros l len, c = '0' ∨ c ∈ l := by
  intro c hc
  rw [padStartZeros, List.mem_append] at hc
  rcases hc with hc | hc
  · exact Or.inl (List.eq_of_mem_replicate hc)
  · exact Or.inr hc

/-- The 8-character hex fingerprint used by the TS resolver. -/
def tsHexOf (userId : List Nat) : List Char :=
  padStartZeros
    (jsToString16 (tsAbs (tsHash (userId ++ codeUnits NAMESPACE_UUID)))) 8

theorem tsHexOf_length (userId : List Nat) : (tsHexOf userId).length = 8 :=
  padStartZeros_length _ _
    (jsToString16_length_le _ (tsAbs_lt _ (tsHash_lt _)))

theorem tsHexOf_mem_isHex (userId : List Nat) :
    ∀ c ∈ tsHexOf userId, isHexChar c = true := by
  intro c hc
  rcases padStartZeros_mem _ _ c hc with h | h
  · subst h; decide
  · exact jsToString16_mem_isHex _ c h

theorem generateConsistentUUID_eq (userId : List Nat) :
    generateConsistentUUID userId =
      (tsHexOf userId).take 8 ++ ['-'] ++ (tsHexOf userId).take 4
        ++ ['-', '4'] ++ ((tsHexOf userId).drop 1).take 3
        ++ ['-', 'a'] ++ (tsHexOf userId).take 3 ++ ['-']
        ++ padEndZeros ((tsHexOf userId).take 12) 12 := rfl

/-! ## Claims about the identity resolver -/

/-- C1: the claim states that the TypeScript `generateConsistentUUID` and the
SQL `public.generateConsistentUUID` produce identical, byte-for-byte equal
canonical-identity strings for every external id.  The code violates this —
the SQL procedure masks the hash with `& 2147483647` (31 bits) at every step
instead of wrapping to a signed 32-bit integer, left-pads the final group
where the TS version right-pads, and in fact its `int4` arithmetic overflows
during the loop (already on the fixed namespace suffix), so the procedure
falls into its `EXCEPTION` branch and returns `gen_random_uuid()`, a random
UUID.  At the failing input `"user_123"` the TS resolver deterministically
returns `064e710c-064e-464e-a064-064e710c0000`, while the SQL procedure's
deterministic algorithm does not complete (`none`, the random fallback). -/
theorem identity_resolver_cross_runtime_divergence :
    String.mk (generateConsistentUUID (codeUnits "user_123")) =
      "064e710c-064e-464e-a064-064e710c0000" ∧
    sqlGenerateConsistentUUID (codeUnits "user_123") = none := by
  constructor
  · decide
  · decide

/-- C2: the TS identity resolver is deterministic and, for every input
code-unit sequence, produces a string matching the UUID-shaped grammar
`xxxxxxxx-xxxx-4xxx-axxx-xxxxxxxxxxxx`: five lowercase-hex groups of lengths
8, 4, 4, 4, 12, group 3 beginning with `'4'` and group 4 beginning with
`'a'`. -/
theorem resolver_deterministic_and_uuid_shaped (userId : List Nat) :
    generateConsistentUUID userId = generateConsistentUUID userId ∧
    UuidShaped (generateConsistentUUID userId) := by
  refine ⟨rfl, ?_⟩
  have hlen : (tsHexOf userId).length = 8 := tsHexOf_length userId
  have hmem : ∀ c ∈ tsHexOf userId, isHexChar c = true := tsHexOf_mem_isHex userId
  refine ⟨(tsHexOf userId).take 8, (tsHexOf userId).take 4,
    '4' :: ((tsHexOf userId).drop 1).take 3,
    'a' :: (tsHexOf userId).take 3,
    padEndZeros ((tsHexOf userId).take 12) 12,
    ?_, ?_, ?_, ?_, ?_, ?_, ?_, rfl, rfl⟩
  · rw [generateConsistentUUID_eq]
    simp
  · simp [List.length_take, hlen]
  · simp [List.length_take, hlen]
  · simp [List.length_take, List.length_drop, hlen]
  · simp [List.length_take, hlen]
  · have h12 : ((tsHexOf userId).take 12).length = 8 := by
      simp [List.length_take, hlen]
    simp [padEndZeros, h12]
  · intro c hc
    rcases List.mem_append.mp hc with hc | hc5
    · rcases List.mem_append.mp hc with hc | hc4
      · rcases List.mem_append.mp hc with hc | hc3
        · rcases List.mem_append.mp hc with hc1 | hc2
          · exact hmem c (List.take_subset _ _ hc1)
          · exact hmem c (List.take_subset _ _ hc2)
        · rcases List.mem_cons.mp hc3 with h | h
          · subst h; decide
          · exact hmem c (List.drop_subset _ _ (List.take_subset _ _ h))
      · rcases List.mem_cons.mp hc4 with h | h
        · subst h; decide
        · exact hmem c (List.take_subset _ _ h)
    · simp only [padEndZeros] at hc5
      rcases List.mem_append.mp hc5 with h | h
      · exact hmem c (List.take_subset _ _ h)
      · have h0 := List.eq_of_mem_replicate h
        subst h0; decide

/-! ## Lemmas about the assessment scorer -/

theorem markCorrect_exists (qs : List QuestionRow) (a : Answer)
    (h : markCorrect qs a = true) :
    ∃ q ∈ qs, q.id = a.questionId ∧ a.selectedAnswer = q.correct_answer := by
  unfold markCorrect at h
  split at h
  · rename_i q hq
    refine ⟨q, List.mem_of_find?_eq_some hq, ?_, by simpa using h⟩
    have := List.find?_some hq
    simpa using this
  · simp at h

theorem markCorrect_iff (qs : List QuestionRow) (a : Answer)
    (hnd : (qs.map QuestionRow.id).Nodup) :
    markCorrect qs a = true ↔
      ∃ q ∈ qs, q.id = a.questionId ∧ a.selectedAnswer = q.correct_answer := by
  constructor
  · exact markCorrect_exists qs a
  · rintro ⟨q, hqmem, hid, hans⟩
    unfold markCorrect
    cases hfind : qs.find? (fun r => r.id = a.questionId) with
    | none =>
      rw [List.find?_eq_none] at hfind
      exact absurd (by simpa using hid) (by simpa using hfind q hqmem)
    | some q' =>
      have hq'mem := List.mem_of_find?_eq_some hfind
      have hq'id : q'.id = a.questionId := by simpa using List.find?_some hfind
      have heq : q' = q :=
        List.inj_on_of_nodup_map hnd hq'mem hqmem (by rw [hq'id, hid])
      subst heq
      simpa using hans

theorem correctCount_le (qs : List QuestionRow) (answers : List Answer)
    (hnd : (answers.map Answer.questionId).Nodup) :
    correctCount qs answers ≤ qs.length := by
  unfold correctCount
  rw [List.countP_eq_length_filter]
  set l := answers.filter (markCorrect qs) with hl
  have hsub : l.Sublist answers := List.filter_sublist answers
  have hlnd : (l.map Answer.questionId).Nodup :=
    List.Nodup.sublist (List.Sublist.map Answer.questionId hsub) hnd
  have hids : ∀ i ∈ l.map Answer.questionId, i ∈ qs.map QuestionRow.id := by
    intro i hi
    rw [List.mem_map] at hi
    obtain ⟨a, hal, rfl⟩ := hi
    have hmc : markCorrect qs a = true := by
      have := List.of_mem_filter hal
      simpa using this
    obtain ⟨q, hq, hqid, -⟩ := markCorrect_exists qs a hmc
    exact List.mem_map.mpr ⟨q, hq, hqid⟩
  have hcard : (l.map Answer.questionId).toFinset.card ≤
      (qs.map QuestionRow.id).toFinset.card := by
    apply Finset.card_le_card
    intro i hi
    rw [List.mem_toFinset] at hi ⊢
    exact hids i hi
  calc l.length = (l.map Answer.questionId).length := by simp
  _ = (l.map Answer.questionId).toFinset.card :=
      (List.toFinset_card_of_nodup hlnd).symm
  _ ≤ (qs.map QuestionRow.id).toFinset.card := hcard
  _ ≤ (qs.map QuestionRow.id).length := List.toFinset_card_le _
  _ = qs.length := by simp

/-! ## Lemmas about the binary64 score model -/

theorem log2Aux_spec (fuel : Nat) :
    ∀ n : Nat, 1 ≤ n → n ≤ fuel →
      2 ^ log2Aux fuel n ≤ n ∧ n < 2 ^ (log2Aux fuel n + 1) := by
  induction fuel with
  | zero => intro n h1 h2; omega
  | succ fuel ih =>
    intro n h1 h2
    simp only [log2Aux]
    split
    · rename_i h2n
      have hrec := ih (n / 2) (by omega) (by omega)
      constructor
      · have hp : (2 : Nat) ^ (log2Aux fuel (n / 2) + 1) =
            2 * 2 ^ log2Aux fuel (n / 2) := by ring
        rw [hp]
        omega
      · have hp : (2 : Nat) ^ (log2Aux fuel (n / 2) + 1 + 1) =
            2 * 2 ^ (log2Aux fuel (n / 2) + 1) := by ring
        rw [hp]
        omega
    · rename_i h2n
      have hn1 : n = 1 := by omega
      subst hn1
      norm_num

theorem nlog2_spec (n : Nat) (h : 1 ≤ n) :
    2 ^ nlog2 n ≤ n ∧ n < 2 ^ (nlog2 n + 1) :=
  log2Aux_spec n n h (Nat.le_refl n)

theorem rneNat_le (A B M : Nat) (hB : 1 ≤ B) (hAM : A ≤ M * B) :
    rneNat A B ≤ M := by
  have hqM : A / B ≤ M := by
    by_contra hq
    push_neg at hq
    have hs : M + 1 ≤ A / B := hq
    have h2 : (M + 1) * B ≤ (A / B) * B := Nat.mul_le_mul_right B hs
    have h3 : (A / B) * B ≤ A := Nat.div_mul_le_self A B
    have h4 : (M + 1) * B = M * B + B := by ring
    omega
  unfold rneNat
  split
  · exact hqM
  · rename_i h1
    have hr : 1 ≤ A % B := by omega
    have hqM' : A / B < M := by
      by_contra hq
      push_neg at hq
      have h2 : M * B ≤ (A / B) * B := Nat.mul_le_mul_right B hq
      have h3 : (A / B) * B ≤ A := Nat.div_mul_le_self A B
      have h4 : B * (A / B) + A % B = A := Nat.div_add_mod A B
      have h5 : B * (A / B) = (A / B) * B := Nat.mul_comm _ _
      omega
    split
    · omega
    · split <;> omega

theorem rneNat_ge (A B : Nat) : A / B ≤ rneNat A B := by
  unfold rneNat
  split
  · exact Nat.le_refl _
  · split
    · omega
    · split <;> omega

theorem fexp_le (a b : Nat) (ha : 1 ≤ a) (hb : 1 ≤ b) :
    b * 2 ^ (fexp a b).toNat ≤ a * 2 ^ (-fexp a b).toNat := by
  unfold fexp
  split
  · rename_i hba
    have hdiv1 : 1 ≤ a / b := (Nat.one_le_div_iff (by omega)).mpr hba
    have hspec := (nlog2_spec (a / b) hdiv1).1
    have e1 : ((nlog2 (a / b) : Int)).toNat = nlog2 (a / b) := by omega
    have e2 : (-(nlog2 (a / b) : Int)).toNat = 0 := by omega
    rw [e1, e2, pow_zero, Nat.mul_one]
    have h1 : b * 2 ^ nlog2 (a / b) ≤ b * (a / b) :=
      Nat.mul_le_mul_left b hspec
    have h2 : (a / b) * b ≤ a := Nat.div_mul_le_self a b
    have h3 : b * (a / b) = (a / b) * b := Nat.mul_comm _ _
    omega
  · rename_i hba
    have hdiv1 : 1 ≤ b / a := (Nat.one_le_div_iff (by omega)).mpr (by omega)
    split
    · rename_i hk
      have e1 : ((-(nlog2 (b / a) : Int))).toNat = 0 := by omega
      have e2 : (-(-(nlog2 (b / a) : Int))).toNat = nlog2 (b / a) := by omega
      rw [e1, e2, pow_zero, Nat.mul_one]
      exact hk
    · rename_i hk
      have hup := (nlog2_spec (b / a) hdiv1).2
      have hd : a * (b / a) + b % a = b := Nat.div_add_mod b a
      have hm : b % a < a := Nat.mod_lt b (by omega)
      have hmul : a * (b / a + 1) = a * (b / a) + a := by ring
      have hstep : a * (b / a + 1) ≤ a * 2 ^ (nlog2 (b / a) + 1) :=
        Nat.mul_le_mul_left a (by omega)
      have e1 : ((-(nlog2 (b / a) + 1 : Int))).toNat = 0 := by omega
      have e2 : (-(-(nlog2 (b / a) + 1 : Int))).toNat = nlog2 (b / a) + 1 := by
        omega
      rw [e1, e2, pow_zero, Nat.mul_one]
      omega

theorem fexp_nonpos (c t : Nat) (hc : 1 ≤ c) (hct : c ≤ t) :
    fexp c t ≤ 0 := by
  unfold fexp
  split
  · rename_i h
    have hct' : c = t := Nat.le_antisymm hct h
    subst hct'
    rw [Nat.div_self (by omega : 0 < c)]
    decide
  · split <;> omega

theorem flSig_le (a b M : Nat) (hb : 1 ≤ b)
    (hM : a * 2 ^ (52 - fexp a b).toNat ≤
      M * (b * 2 ^ (fexp a b - 52).toNat)) :
    flSig a b ≤ M := by
  unfold flSig
  exact rneNat_le _ _ M
    (by exact Nat.mul_pos hb (pow_pos (by omega) _)) hM

theorem flSig_pos (a b : Nat) (ha : 1 ≤ a) (hb : 1 ≤ b) :
    1 ≤ flSig a b := by
  unfold flSig
  have hfe := fexp_le a b ha hb
  have hB : 0 < b * 2 ^ (fexp a b - 52).toNat :=
    Nat.mul_pos (by omega) (pow_pos (by omega) _)
  have hab : b * 2 ^ (fexp a b - 52).toNat ≤
      a * 2 ^ (52 - fexp a b).toNat := by
    rcases le_or_lt (fexp a b) 52 with h | h
    · have e1 : (fexp a b - 52).toNat = 0 := by omega
      rw [e1, pow_zero, Nat.mul_one]
      have h1 : b ≤ b * 2 ^ (fexp a b).toNat :=
        Nat.le_mul_of_pos_right b (pow_pos (by omega) _)
      have h2 : a * 2 ^ (-fexp a b).toNat ≤ a * 2 ^ (52 - fexp a b).toNat :=
        Nat.mul_le_mul_left a (Nat.pow_le_pow_right (by omega) (by omega))
      omega
    · have e2 : (52 - fexp a b).toNat = 0 := by omega
      rw [e2, pow_zero, Nat.mul_one]
      have e3 : (-fexp a b).toNat = 0 := by omega
      rw [e3, pow_zero, Nat.mul_one] at hfe
      have h1 : b * 2 ^ (fexp a b - 52).toNat ≤ b * 2 ^ (fexp a b).toNat :=
        Nat.mul_le_mul_left b (Nat.pow_le_pow_right (by omega) (by omega))
      omega
  have h1 : 1 ≤ (a * 2 ^ (52 - fexp a b).toNat) /
      (b * 2 ^ (fexp a b - 52).toNat) :=
    (Nat.one_le_div_iff hB).mpr hab
  have h2 := rneNat_ge (a * 2 ^ (52 - fexp a b).toNat)
    (b * 2 ^ (fexp a b - 52).toNat)
  omega

/-- The program's `Math.round((c / t) * 100)` never exceeds 100 when
`c ≤ t`: both binary64 roundings preserve the bound `value ≤ 100`
(each rounded value is at most `100 · 2^K / 2^K`), and `Math.round`
of a double `≤ 100` is `≤ 100`. -/
theorem jsScore_le_100 (c t : Nat) (hct : c ≤ t) : jsScore c t ≤ 100 := by
  unfold jsScore
  split
  · omega
  · rename_i h0
    have hc : 1 ≤ c := by omega
    have ht : 1 ≤ t := by omega
    have he1 : fexp c t ≤ 0 := fexp_nonpos c t hc hct
    have he2 : (fexp c t - 52).toNat = 0 := by omega
    have hn1 : flSig c t ≤ 2 ^ (52 - fexp c t).toNat := by
      refine flSig_le c t _ ht ?_
      rw [he2, pow_zero, Nat.mul_one]
      calc c * 2 ^ (52 - fexp c t).toNat
          ≤ t * 2 ^ (52 - fexp c t).toNat := Nat.mul_le_mul_right _ hct
        _ = 2 ^ (52 - fexp c t).toNat * t := Nat.mul_comm _ _
    have hP1 : 1 ≤ prodNum c t := by
      unfold prodNum
      have hs := flSig_pos c t hc ht
      have h2 : 0 < 2 ^ (fexp c t - 52).toNat := pow_pos (by omega) _
      have h3 : 0 < 100 * flSig c t := by omega
      exact Nat.mul_pos h3 h2
    have hQ1 : 1 ≤ prodDen c t := by
      unfold prodDen
      exact Nat.one_le_two_pow
    have hPQ : prodNum c t ≤ 100 * prodDen c t := by
      unfold prodNum prodDen
      rw [he2, pow_zero, Nat.mul_one]
      exact Nat.mul_le_mul_left 100 hn1
    have he2b : fexp (prodNum c t) (prodDen c t) ≤ 6 := by
      by_contra hgt
      push_neg at hgt
      have hfe := fexp_le (prodNum c t) (prodDen c t) hP1 hQ1
      have ez : (-fexp (prodNum c t) (prodDen c t)).toNat = 0 := by omega
      rw [ez, pow_zero, Nat.mul_one] at hfe
      have h7 : (2 : Nat) ^ (7 : Nat) ≤
          2 ^ (fexp (prodNum c t) (prodDen c t)).toNat :=
        Nat.pow_le_pow_right (by omega) (by omega)
      have h8 : prodDen c t * 2 ^ (7 : Nat) ≤
          prodDen c t * 2 ^ (fexp (prodNum c t) (prodDen c t)).toNat :=
        Nat.mul_le_mul_left _ h7
      have h10 : prodDen c t * 2 ^ (7 : Nat) = 128 * prodDen c t := by
        rw [Nat.mul_comm]
        norm_num
      omega
    have hn2 : flSig (prodNum c t) (prodDen c t) ≤
        100 * 2 ^ (52 - fexp (prodNum c t) (prodDen c t)).toNat := by
      refine flSig_le _ _ _ hQ1 ?_
      have ez : (fexp (prodNum c t) (prodDen c t) - 52).toNat = 0 := by omega
      rw [ez, pow_zero, Nat.mul_one]
      calc prodNum c t *
            2 ^ (52 - fexp (prodNum c t) (prodDen c t)).toNat
          ≤ (100 * prodDen c t) *
            2 ^ (52 - fexp (prodNum c t) (prodDen c t)).toNat :=
            Nat.mul_le_mul_right _ hPQ
        _ = 100 * 2 ^ (52 - fexp (prodNum c t) (prodDen c t)).toNat *
            prodDen c t := by ring
    unfold jsRoundDyadic
    split
    · omega
    · rename_i h52
      have hd : 0 < (2 : Nat) ^
          ((52 - fexp (prodNum c t) (prodDen c t)).toNat + 1) :=
        pow_pos (by omega) _
      have hlt : 2 * flSig (prodNum c t) (prodDen c t) +
          2 ^ (52 - fexp (prodNum c t) (prodDen c t)).toNat <
          101 * 2 ^ ((52 - fexp (prodNum c t) (prodDen c t)).toNat + 1) := by
        have hs : (2 : Nat) ^
            ((52 - fexp (prodNum c t) (prodDen c t)).toNat + 1) =
            2 * 2 ^ (52 - fexp (prodNum c t) (prodDen c t)).toNat := by ring
        have hp : 0 < (2 : Nat) ^
            (52 - fexp (prodNum c t) (prodDen c t)).toNat :=
          pow_pos (by omega) _
        rw [hs]
        omega
      have hq := (Nat.div_lt_iff_lt_mul hd).mpr hlt
      omega

/-! ## Concrete scorer inputs used by witnesses and counterexamples -/

/-- Ten canonical questions, ids 1..10, all with correct answer `"a"`. -/
def sampleQuestions10 : List QuestionRow :=
  (List.range 10).map fun i =>
    { id := i + 1
      course_id := "course-1"
      correct_answer := "a"
      is_active := true
      order_index := i }

/-- Correct submissions for only 5 of the 10 questions. -/
def sampleAnswers5 : List Answer :=
  (List.range 5).map fun i => { questionId := i + 1, selectedAnswer := "a" }

/-- Forty canonical questions, ids 1..40, all with correct answer `"a"`. -/
def sampleQuestions40 : List QuestionRow :=
  (List.range 40).map fun i =>
    { id := i + 1
      course_id := "course-1"
      correct_answer := "a"
      is_active := true
      order_index := i }

/-- Correct submissions for 23 of the 40 questions. -/
def sampleAnswers23 : List Answer :=
  (List.range 23).map fun i => { questionId := i + 1, selectedAnswer := "a" }

/-- A single canonical question. -/
def singleQuestion : List QuestionRow :=
  [{ id := 1
     course_id := "course-1"
     correct_answer := "a"
     is_active := true
     order_index := 0 }]

/-- The same correct answer submitted twice. -/
def duplicatedAnswers : List Answer :=
  [{ questionId := 1, selectedAnswer := "a" },
   { questionId := 1, selectedAnswer := "a" }]

/-! ## Claims about the assessment scorer -/

/-- C3 counterexample: the claim's `score = round(100 * c / t)` read as
exact rounding to the nearest integer (`specRoundPercent`, round-half-up)
disagrees with the program on exact-half cases: with 40 canonical questions
and 23 correct answers the binary64 product `(23/40)*100` is
`57.49999999999999` (one ulp below the exact half `57.5`), so the program's
`Math.round` returns 57 while exact rounding gives 58. -/
theorem scorer_round_halfcase_counterexample :
    (scoreAssessment sampleQuestions40 sampleAnswers23).correctAnswers =
      23 ∧
    sampleQuestions40.length = 40 ∧
    (scoreAssessment sampleQuestions40 sampleAnswers23).score = 57 ∧
    specRoundPercent 23 40 = 58 := by
  decide

/-- C3 (amended): for a non-empty canonical-question list (with the
distinct ids the `course_questions` primary key guarantees) and any
submitted answers, the scorer marks a submitted answer correct iff a
canonical question with the submitted `questionId` exists whose
`correct_answer` equals the selected choice (a missing match counts as
incorrect), the score is `Math.round((correctCount / canonicalCount) * 100)`
computed in IEEE binary64 arithmetic (`jsScore`) with the
canonical-question count as denominator — which equals exact
round-half-up except on exact-half cases the floating-point product lands
one ulp below (e.g. 23 of 40 scores 57, not 58) — and
`passed = (score >= 70)`. -/
theorem scorer_marks_and_rounds (qs : List QuestionRow)
    (answers : List Answer) (hne : qs ≠ [])
    (hnd : (qs.map QuestionRow.id).Nodup) :
    (∀ e ∈ (scoreAssessment qs answers).answers,
      e.isCorrect = true ↔
        ∃ q ∈ qs, q.id = e.questionId ∧
          e.selectedAnswer = q.correct_answer) ∧
    (scoreAssessment qs answers).totalQuestions = qs.length ∧
    (scoreAssessment qs answers).score =
      jsScore (correctCount qs answers) qs.length ∧
    ((scoreAssessment qs answers).passed = true ↔
      70 ≤ (scoreAssessment qs answers).score) := by
  refine ⟨?_, rfl, rfl, by simp [scoreAssessment]⟩
  intro e he
  simp only [scoreAssessment, evaluateAnswers, List.mem_map] at he
  obtain ⟨a, -, rfl⟩ := he
  exact markCorrect_iff qs a hnd

/-- Witness for the amended C3, realizing the spec's test vector: 10
canonical questions, answers submitted for only 5 of them, all 5 correct,
give score 50 (denominator is the canonical count) and `passed = false`. -/
theorem scorer_marks_and_rounds_witness :
    (sampleQuestions10 ≠ [] ∧
      (sampleQuestions10.map QuestionRow.id).Nodup ∧
      (scoreAssessment sampleQuestions10 sampleAnswers5).score = 50 ∧
      (scoreAssessment sampleQuestions10 sampleAnswers5).passed = false) ∧
    ((∀ e ∈ (scoreAssessment sampleQuestions10 sampleAnswers5).answers,
      e.isCorrect = true ↔
        ∃ q ∈ sampleQuestions10, q.id = e.questionId ∧
          e.selectedAnswer = q.correct_answer) ∧
    (scoreAssessment sampleQuestions10 sampleAnswers5).totalQuestions =
      sampleQuestions10.length ∧
    (scoreAssessment sampleQuestions10 sampleAnswers5).score =
      jsScore (correctCount sampleQuestions10 sampleAnswers5)
        sampleQuestions10.length ∧
    ((scoreAssessment sampleQuestions10 sampleAnswers5).passed = true ↔
      70 ≤ (scoreAssessment sampleQuestions10 sampleAnswers5).score)) :=
  ⟨by decide,
   scorer_marks_and_rounds sampleQuestions10 sampleAnswers5
     (by decide) (by decide)⟩

/-- C4 counterexample: the claim says the score is in `0..100` for every
list of submitted answers; but the scorer counts every submitted answer
independently, so submitting the same (correct) answer twice against a
single-question canonical set gives `correctAnswers = 2`,
`score = round(2/1 * 100) = 200 > 100`. -/
theorem score_range_counterexample :
    singleQuestion ≠ [] ∧
    (scoreAssessment singleQuestion duplicatedAnswers).score = 200 := by
  decide

/-- C4 (amended): if additionally the submitted answers reference pairwise
distinct `questionId`s (each question answered at most once), the score is
an integer in `0..100` (it is a `Nat`, hence `0 ≤ score` always). -/
theorem score_le_100_of_nodup_answers (qs : List QuestionRow)
    (answers : List Answer) (hne : qs ≠ [])
    (hnd : (answers.map Answer.questionId).Nodup) :
    (scoreAssessment qs answers).score ≤ 100 := by
  have hc := correctCount_le qs answers hnd
  show jsScore (correctCount qs answers) qs.length ≤ 100
  exact jsScore_le_100 _ _ hc

/-- Witness for the amended C4 at a concrete distinct-ids submission. -/
theorem score_le_100_of_nodup_answers_witness :
    (sampleQuestions10 ≠ [] ∧
      (sampleAnswers5.map Answer.questionId).Nodup) ∧
    (scoreAssessment sampleQuestions10 sampleAnswers5).score ≤ 100 :=
  ⟨by decide,
   score_le_100_of_nodup_answers sampleQuestions10 sampleAnswers5
     (by decide) (by decide)⟩

/-! ## Lemmas about the subscription upsert -/

theorem find?_map_replace (l : List SubscriptionRow) (row : SubscriptionRow)
    (h : ∃ r ∈ l, r.user_id = row.user_id) :
    (l.map (fun r => if r.user_id = row.user_id then row else r)).find?
      (fun r => r.user_id = row.user_id) = some row := by
  induction l with
  | nil => simp at h
  | cons r l ih =>
    rw [List.map_cons]
    by_cases hr : r.user_id = row.user_id
    · rw [if_pos hr]
      exact List.find?_cons_of_pos _ (by simp)
    · rw [if_neg hr]
      rw [List.find?_cons_of_neg _ (by simpa using hr)]
      apply ih
      obtain ⟨r0, hr0, hr0id⟩ := h
      rcases List.mem_cons.mp hr0 with rfl | hr0l
      · exact absurd hr0id hr
      · exact ⟨r0, hr0l, hr0id⟩

theorem find?_append_row (l : List SubscriptionRow) (row : SubscriptionRow)
    (h : ∀ r ∈ l, ¬ r.user_id = row.user_id) :
    (l ++ [row]).find? (fun r => r.user_id = row.user_id) = some row := by
  induction l with
  | nil => exact List.find?_cons_of_pos _ (by simp)
  | cons r l ih =>
    rw [List.cons_append,
      List.find?_cons_of_neg _ (by simpa using h r (List.mem_cons_self r l))]
    exact ih (fun r' hr' => h r' (List.mem_cons_of_mem r hr'))

theorem find?_upsertSubscription (l : List SubscriptionRow)
    (row : SubscriptionRow) :
    (upsertSubscription l row).find? (fun r => r.user_id = row.user_id) =
      some row := by
  unfold upsertSubscription
  split
  · rename_i hany
    rw [List.any_eq_true] at hany
    obtain ⟨r0, hr0, hr0id⟩ := hany
    exact find?_map_replace l row ⟨r0, hr0, by simpa using hr0id⟩
  · rename_i hany
    rw [Bool.not_eq_true, List.any_eq_false] at hany
    exact find?_append_row l row (fun r hr => by simpa using hany r hr)

/-! ## Reduction lemmas for the `verify_payment` workflow -/

theorem verifyPayment_bad_sig (hmac : String → String → List Nat)
    (profileRpc : List ProfileRow → Except String (List ProfileRow))
    (secret : String) (now : Date) (faults : PaymentFaults)
    (req : VerifyPaymentRequest) (db : PaymentDB)
    (hemail : req.user_email ≠ "") (hid : req.clerkUserId ≠ "")
    (hne : req.razorpay_signature ≠ String.mk (hexEncodeBytes (hmac secret
      (req.razorpay_order_id ++ "|" ++ req.razorpay_payment_id)))) :
    verifyPayment hmac profileRpc secret now faults req db =
      (.failure "Invalid payment signature"
        "Enhanced payment processing failed", db) := by
  unfold verifyPayment
  rw [if_neg (by simp [hemail, hid]), if_pos (Ne.symm hne)]

theorem verifyPayment_pass_gate (hmac : String → String → List Nat)
    (profileRpc : List ProfileRow → Except String (List ProfileRow))
    (secret : String) (now : Date) (faults : PaymentFaults)
    (req : VerifyPaymentRequest) (db : PaymentDB)
    (hemail : req.user_email ≠ "") (hid : req.clerkUserId ≠ "")
    (hsig : req.razorpay_signature = String.mk (hexEncodeBytes (hmac secret
      (req.razorpay_order_id ++ "|" ++ req.razorpay_payment_id)))) :
    verifyPayment hmac profileRpc secret now faults req db =
      verifyPaymentAfterSignature profileRpc now faults req db := by
  unfold verifyPayment
  rw [if_neg (by simp [hemail, hid]), if_neg (by simp [hsig])]

theorem afterSignature_no_faults
    (profileRpc : List ProfileRow → Except String (List ProfileRow))
    (now : Date) (faults : PaymentFaults)
    (req : VerifyPaymentRequest) (db : PaymentDB)
    (hpay : faults.paymentInsert = none)
    (hsub : faults.subscriptionUpsert = none) :
    verifyPaymentAfterSignature profileRpc now faults req db =
      (.success "Payment verified and subscription activated",
       { profiles := ensureProfiles profileRpc db.profiles
         payments := db.payments ++ [paymentRowOf req]
         subscriptions :=
           upsertSubscription db.subscriptions (subscriptionRowOf req now) }) := by
  unfold verifyPaymentAfterSignature
  rw [hpay, hsub]

theorem afterSignature_sub_fault
    (profileRpc : List ProfileRow → Except String (List ProfileRow))
    (now : Date) (faults : PaymentFaults) (msg : String)
    (req : VerifyPaymentRequest) (db : PaymentDB)
    (hpay : faults.paymentInsert = none)
    (hsub : faults.subscriptionUpsert = some msg) :
    verifyPaymentAfterSignature profileRpc now faults req db =
      (.failure ("Failed to manage subscription: " ++ msg)
        "Enhanced payment processing failed",
       { profiles := ensureProfiles profileRpc db.profiles
         payments := db.payments ++ [paymentRowOf req]
         subscriptions := db.subscriptions }) := by
  unfold verifyPaymentAfterSignature
  rw [hpay, hsub]

/-! ## Concrete payment-workflow inputs used by witnesses -/

/-- A concrete HMAC oracle: always the one-byte digest `0xab`. -/
def witnessHmac : String → String → List Nat := fun _ _ => [171]

/-- A concrete profile stored-procedure oracle that succeeds unchanged. -/
def witnessRpc : List ProfileRow → Except String (List ProfileRow) :=
  fun l => .ok l

/-- A concrete request whose signature matches `witnessHmac`
(`hexEncodeBytes [171] = "ab"`). -/
def witnessReq : VerifyPaymentRequest :=
  { razorpay_order_id := "order_1"
    razorpay_payment_id := "pay_1"
    razorpay_signature := "ab"
    plan_type := "pro"
    amount := 99
    currency := "INR"
    user_email := "u@example.com"
    clerkUserId := "user_123" }

def witnessDate : Date := { year := 2026, month := 0, day := 15 }

def witnessDate2 : Date := { year := 2026, month := 2, day := 10 }

def noFaults : PaymentFaults :=
  { paymentInsert := none, subscriptionUpsert := none }

def subFaultOnly : PaymentFaults :=
  { paymentInsert := none, subscriptionUpsert := some "disk full" }

def emptyPaymentDB : PaymentDB :=
  { profiles := [], payments := [], subscriptions := [] }

/-! ## Claims about the `verify_payment` workflow -/

/-- C5: with the required request fields present, execution proceeds past
signature verification iff the provided signature equals the lowercase-hex
encoding of the HMAC-SHA256 digest (oracle `hmac`) of
`orderId + "|" + paymentId` under the configured secret; on mismatch the
workflow aborts with the invalid-payment-signature error and the storage
state is returned unchanged — no profile write, no payment record, no
subscription change. -/
theorem signature_gate (hmac : String → String → List Nat)
    (profileRpc : List ProfileRow → Except String (List ProfileRow))
    (secret : String) (now : Date) (faults : PaymentFaults)
    (req : VerifyPaymentRequest) (db : PaymentDB)
    (hemail : req.user_email ≠ "") (hid : req.clerkUserId ≠ "") :
    (req.razorpay_signature ≠ String.mk (hexEncodeBytes (hmac secret
        (req.razorpay_order_id ++ "|" ++ req.razorpay_payment_id))) →
      verifyPayment hmac profileRpc secret now faults req db =
        (.failure "Invalid payment signature"
          "Enhanced payment processing failed", db)) ∧
    (req.razorpay_signature = String.mk (hexEncodeBytes (hmac secret
        (req.razorpay_order_id ++ "|" ++ req.razorpay_payment_id))) →
      verifyPayment hmac profileRpc secret now faults req db =
        verifyPaymentAfterSignature profileRpc now faults req db) :=
  ⟨fun hne =>
    verifyPayment_bad_sig hmac profileRpc secret now faults req db
      hemail hid hne,
   fun heq =>
    verifyPayment_pass_gate hmac profileRpc secret now faults req db
      hemail hid heq⟩

/-- Witness for C5 at a concrete request and oracle: exercises both the
mismatching and the matching signature. -/
theorem signature_gate_witness :
    (witnessReq.user_email ≠ "" ∧ witnessReq.clerkUserId ≠ "") ∧
    ((witnessReq.razorpay_signature ≠
        String.mk (hexEncodeBytes (witnessHmac "sk"
          (witnessReq.razorpay_order_id ++ "|" ++
            witnessReq.razorpay_payment_id))) →
      verifyPayment witnessHmac witnessRpc "sk" witnessDate noFaults
          witnessReq emptyPaymentDB =
        (.failure "Invalid payment signature"
          "Enhanced payment processing failed", emptyPaymentDB)) ∧
    (witnessReq.razorpay_signature =
        String.mk (hexEncodeBytes (witnessHmac "sk"
          (witnessReq.razorpay_order_id ++ "|" ++
            witnessReq.razorpay_payment_id))) →
      verifyPayment witnessHmac witnessRpc "sk" witnessDate noFaults
          witnessReq emptyPaymentDB =
        verifyPaymentAfterSignature witnessRpc witnessDate noFaults
          witnessReq emptyPaymentDB)) :=
  ⟨by decide,
   signature_gate witnessHmac witnessRpc "sk" witnessDate noFaults
     witnessReq emptyPaymentDB (by decide) (by decide)⟩

/-- C6: when the request passes validation and the signature gate and no
storage fault is injected, the subscription table is exactly the upsert of
the row keyed by the canonical identity with the supplied plan, status
`active`, period start `now`, period end one calendar month after `now`
(JS `setMonth(getMonth()+1)`), and `was_granted = false`; and a repeated
call at a later `now₂` overwrites the prior period bounds with `now₂`-based
ones (not a no-op on retry). -/
theorem entitlement_upsert_overwrites (hmac : String → String → List Nat)
    (profileRpc : List ProfileRow → Except String (List ProfileRow))
    (secret : String) (now now2 : Date) (faults faults2 : PaymentFaults)
    (req : VerifyPaymentRequest) (db : PaymentDB)
    (hemail : req.user_email ≠ "") (hid : req.clerkUserId ≠ "")
    (hsig : req.razorpay_signature = String.mk (hexEncodeBytes (hmac secret
      (req.razorpay_order_id ++ "|" ++ req.razorpay_payment_id))))
    (hpay : faults.paymentInsert = none)
    (hsub : faults.subscriptionUpsert = none)
    (hpay2 : faults2.paymentInsert = none)
    (hsub2 : faults2.subscriptionUpsert = none) :
    (verifyPayment hmac profileRpc secret now faults req db).2.subscriptions =
      upsertSubscription db.subscriptions (subscriptionRowOf req now) ∧
    List.find?
      (fun r =>
        r.user_id = generateConsistentUUID (codeUnits req.clerkUserId))
      (verifyPayment hmac profileRpc secret now2 faults2 req
        (verifyPayment hmac profileRpc secret now faults req db).2).2.subscriptions =
      some (subscriptionRowOf req now2) := by
  constructor
  · rw [verifyPayment_pass_gate hmac profileRpc secret now faults req db
        hemail hid hsig,
      afterSignature_no_faults profileRpc now faults req db hpay hsub]
  · rw [verifyPayment_pass_gate hmac profileRpc secret now faults req db
        hemail hid hsig,
      afterSignature_no_faults profileRpc now faults req db hpay hsub,
      verifyPayment_pass_gate hmac profileRpc secret now2 faults2 req _
        hemail hid hsig,
      afterSignature_no_faults profileRpc now2 faults2 req _ hpay2 hsub2]
    exact find?_upsertSubscription
      (upsertSubscription db.subscriptions (subscriptionRowOf req now))
      (subscriptionRowOf req now2)

/-- Witness for C6: two sequential verified purchases at concrete dates;
the second run's row carries the second date's period bounds. -/
theorem entitlement_upsert_overwrites_witness :
    (witnessReq.user_email ≠ "" ∧ witnessReq.clerkUserId ≠ "" ∧
      witnessReq.razorpay_signature =
        String.mk (hexEncodeBytes (witnessHmac "sk"
          (witnessReq.razorpay_order_id ++ "|" ++
            witnessReq.razorpay_payment_id))) ∧
      noFaults.paymentInsert = none ∧ noFaults.subscriptionUpsert = none) ∧
    ((verifyPayment witnessHmac witnessRpc "sk" witnessDate noFaults
        witnessReq emptyPaymentDB).2.subscriptions =
      upsertSubscription emptyPaymentDB.subscriptions
        (subscriptionRowOf witnessReq witnessDate) ∧
    List.find?
      (fun r =>
        r.user_id = generateConsistentUUID (codeUnits witnessReq.clerkUserId))
      (verifyPayment witnessHmac witnessRpc "sk" witnessDate2 noFaults
        witnessReq
        (verifyPayment witnessHmac witnessRpc "sk" witnessDate noFaults
          witnessReq emptyPaymentDB).2).2.subscriptions =
      some (subscriptionRowOf witnessReq witnessDate2)) :=
  ⟨by decide,
   entitlement_upsert_overwrites witnessHmac witnessRpc "sk" witnessDate
     witnessDate2 noFaults noFaults witnessReq emptyPaymentDB (by decide)
     (by decide) (by decide) rfl rfl rfl rfl⟩

/-- C7: if the payment insert succeeds and the subscription upsert then
fails, the response is the fatal `Failed to manage subscription` error (not
success), the already-inserted payment row remains in storage (no
compensating rollback), and the subscription table is unchanged. -/
theorem payment_kept_on_entitlement_fault (hmac : String → String → List Nat)
    (profileRpc : List ProfileRow → Except String (List ProfileRow))
    (secret : String) (now : Date) (faults : PaymentFaults) (msg : String)
    (req : VerifyPaymentRequest) (db : PaymentDB)
    (hemail : req.user_email ≠ "") (hid : req.clerkUserId ≠ "")
    (hsig : req.razorpay_signature = String.mk (hexEncodeBytes (hmac secret
      (req.razorpay_order_id ++ "|" ++ req.razorpay_payment_id))))
    (hpay : faults.paymentInsert = none)
    (hsub : faults.subscriptionUpsert = some msg) :
    (verifyPayment hmac profileRpc secret now faults req db).1 =
      .failure ("Failed to manage subscription: " ++ msg)
        "Enhanced payment processing failed" ∧
    (verifyPayment hmac profileRpc secret now faults req db).2.payments =
      db.payments ++ [paymentRowOf req] ∧
    (verifyPayment hmac profileRpc secret now faults req db).2.subscriptions =
      db.subscriptions := by
  rw [verifyPayment_pass_gate hmac profileRpc secret now faults req db
      hemail hid hsig,
    afterSignature_sub_fault profileRpc now faults msg req db hpay hsub]
  exact ⟨rfl, rfl, rfl⟩

/-- Witness for C7 at a concrete request with an injected subscription-upsert
fault. -/
theorem payment_kept_on_entitlement_fault_witness :
    (witnessReq.user_email ≠ "" ∧ witnessReq.clerkUserId ≠ "" ∧
      subFaultOnly.paymentInsert = none ∧
      subFaultOnly.subscriptionUpsert = some "disk full") ∧
    ((verifyPayment witnessHmac witnessRpc "sk" witnessDate subFaultOnly
        witnessReq emptyPaymentDB).1 =
      .failure ("Failed to manage subscription: " ++ "disk full")
        "Enhanced payment processing failed" ∧
    (verifyPayment witnessHmac witnessRpc "sk" witnessDate subFaultOnly
        witnessReq emptyPaymentDB).2.payments =
      emptyPaymentDB.payments ++ [paymentRowOf witnessReq] ∧
    (verifyPayment witnessHmac witnessRpc "sk" witnessDate subFaultOnly
        witnessReq emptyPaymentDB).2.subscriptions =
      emptyPaymentDB.subscriptions) :=
  ⟨by decide,
   payment_kept_on_entitlement_fault witnessHmac witnessRpc "sk" witnessDate
     subFaultOnly "disk full" witnessReq emptyPaymentDB (by decide)
     (by decide) (by decide) rfl rfl⟩

/-! ## Lemmas about credential issuance -/

theorem find?_append_left_none {α : Type} (l1 l2 : List α) (p : α → Bool)
    (h : l1.find? p = none) : (l1 ++ l2).find? p = l2.find? p := by
  induction l1 with
  | nil => rfl
  | cons a l ih =>
    cases hp : p a with
    | true =>
      rw [List.find?_cons_of_pos _ hp] at h
      exact absurd h (by simp)
    | false =>
      rw [List.find?_cons_of_neg _ (by simp [hp])] at h
      rw [List.cons_append, List.find?_cons_of_neg _ (by simp [hp])]
      exact ih h

theorem certStep2_user_certificates (now : Date) (faults : CertFaults)
    (p : CertParams) (db : LearnDB) :
    (certStep2 now faults p db).user_certificates = db.user_certificates := by
  unfold certStep2
  cases p.clerkUserId with
  | none => rfl
  | some cid =>
    cases faults.certMgmtRpc with
    | some _ => rfl
    | none => rfl

theorem certTemplateStep_user_certificates (faults : CertFaults)
    (db db2 : LearnDB) (t : CertTemplateRow)
    (h : certTemplateStep faults db = some (t, db2)) :
    db2.user_certificates = db.user_certificates := by
  unfold certTemplateStep at h
  split at h
  · simp only [Option.some.injEq, Prod.mk.injEq] at h
    obtain ⟨-, h2⟩ := h
    rw [← h2]
  · split at h
    · exact absurd h (by simp)
    · simp only [Option.some.injEq, Prod.mk.injEq] at h
      obtain ⟨-, h2⟩ := h
      rw [← h2]

/-! ## Concrete learning-service inputs used by witnesses -/

def learnProfile : ProfileRow :=
  { id := generateConsistentUUID (codeUnits "user_123")
    full_name := "Student"
    email := "s@example.com" }

def learnTemplate : CertTemplateRow :=
  { id := 7
    title := "Course Completion Certificate"
    description := "Certificate of successful course completion"
    certificate_type := "completion"
    is_active := true
    auto_issue := true
    min_score := 70 }

def learnQuestion : QuestionRow :=
  { id := 1
    course_id := "c1"
    correct_answer := "a"
    is_active := true
    order_index := 0 }

def baseLearnDB : LearnDB :=
  { profiles := [learnProfile]
    course_questions := [learnQuestion]
    user_learning := []
    user_certificates := []
    certificates := [learnTemplate]
    cert_mgmt := []
    nextId := 100 }

def certParamsW : CertParams :=
  { userId := generateConsistentUUID (codeUnits "user_123")
    name := "Student"
    courseId := "c1"
    courseName := "Course One"
    score := 85
    clerkUserId := some "user_123" }

def noCertFaults : CertFaults :=
  { certMgmtRpc := none, templateInsert := none, certInsert := none }

/-- Evaluate-assessment faults with only the credential insert failing. -/
def c9faults : EvalFaults :=
  { selectQuestions := none
    learningWrite := none
    certFaults :=
      { certMgmtRpc := none
        templateInsert := none
        certInsert := some "insert failed" } }

/-- Fetch faults with only the create-on-miss insert failing. -/
def c10faults : FetchFaults :=
  { selectLearning := none, createLearning := some "disk full" }

/-! ## Claims about credential issuance -/

/-- C8: if issuance is invoked twice in sequence for the same (identity,
course) and the first call issued a credential (returned success with the
`Certificate generated successfully` message), then the second call inserts
no new credential row and returns success referencing the same credential id
(the already-issued outcome).  A passing score is implied by the first
call's success. -/
theorem credential_issuance_idempotent
    (now now2 : Date) (code code2 : String) (faults faults2 : CertFaults)
    (p : CertParams) (db : LearnDB)
    (hsuccess : (generateCertificate now code faults p db).1.success = true)
    (hmsg : (generateCertificate now code faults p db).1.message =
      some "Certificate generated successfully") :
    (generateCertificate now2 code2 faults2 p
        (generateCertificate now code faults p db).2).1 =
      { success := true
        certificateId :=
          (generateCertificate now code faults p db).1.certificateId
        message := some "Certificate already exists" } ∧
    (generateCertificate now2 code2 faults2 p
        (generateCertificate now code faults p db).2).2.user_certificates =
      (generateCertificate now code faults p db).2.user_certificates := by
  by_cases h70 : p.score < 70
  · exfalso
    unfold generateCertificate at hsuccess
    rw [if_pos h70] at hsuccess
    simp at hsuccess
  · unfold generateCertificate at hsuccess hmsg
    rw [if_neg h70] at hsuccess hmsg
    cases hfind : ((certStep2 now faults p db).user_certificates.find?
        (certMatches p.userId p.courseId)) with
    | some c =>
      rw [hfind] at hmsg
      simp at hmsg
    | none =>
      rw [hfind] at hsuccess hmsg
      cases htpl : certTemplateStep faults (certStep2 now faults p db) with
      | none =>
        rw [htpl] at hmsg
        simp at hmsg
      | some td =>
        obtain ⟨t, db2⟩ := td
        rw [htpl] at hsuccess hmsg
        cases hins : faults.certInsert with
        | some m =>
          rw [hins] at hsuccess
          simp at hsuccess
        | none =>
          have h1 : generateCertificate now code faults p db =
              ({ success := true, certificateId := some db2.nextId
                 message := some "Certificate generated successfully" },
               { db2 with
                  user_certificates := db2.user_certificates ++
                    [certRowOf now code p t.id db2.nextId],
                  nextId := db2.nextId + 1 }) := by
            unfold generateCertificate
            rw [if_neg h70, hfind, htpl, hins]
          rw [h1]
          have huc2 : db2.user_certificates =
              (certStep2 now faults p db).user_certificates :=
            certTemplateStep_user_certificates faults _ db2 t htpl
          have hfind2 :
              (certStep2 now2 faults2 p
                { db2 with
                   user_certificates := db2.user_certificates ++
                     [certRowOf now code p t.id db2.nextId],
                   nextId := db2.nextId + 1 }).user_certificates.find?
                (certMatches p.userId p.courseId) =
              some (certRowOf now code p t.id db2.nextId) := by
            rw [certStep2_user_certificates]
            show (db2.user_certificates ++
              [certRowOf now code p t.id db2.nextId]).find? _ = _
            rw [find?_append_left_none _ _ _ (by rw [huc2]; exact hfind)]
            exact List.find?_cons_of_pos _ (by simp [certMatches, certRowOf])
          unfold generateCertificate
          rw [if_neg h70, hfind2]
          exact ⟨rfl, certStep2_user_certificates now2 faults2 p _⟩

/-- Witness for C8: a first issuance against a fresh store followed by a
repeat call; the repeat returns the same credential id with the
already-exists outcome. -/
theorem credential_issuance_idempotent_witness :
    ((generateCertificate witnessDate "CERT-1" noCertFaults certParamsW
        baseLearnDB).1.success = true ∧
      (generateCertificate witnessDate "CERT-1" noCertFaults certParamsW
        baseLearnDB).1.message = some "Certificate generated successfully") ∧
    ((generateCertificate witnessDate2 "CERT-2" noCertFaults certParamsW
        (generateCertificate witnessDate "CERT-1" noCertFaults certParamsW
          baseLearnDB).2).1 =
      { success := true
        certificateId :=
          (generateCertificate witnessDate "CERT-1" noCertFaults certParamsW
            baseLearnDB).1.certificateId
        message := some "Certificate already exists" } ∧
    (generateCertificate witnessDate2 "CERT-2" noCertFaults certParamsW
        (generateCertificate witnessDate "CERT-1" noCertFaults certParamsW
          baseLearnDB).2).2.user_certificates =
      (generateCertificate witnessDate "CERT-1" noCertFaults certParamsW
        baseLearnDB).2.user_certificates) :=
  ⟨by decide,
   credential_issuance_idempotent witnessDate witnessDate2 "CERT-1" "CERT-2"
     noCertFaults noCertFaults certParamsW baseLearnDB (by decide)
     (by decide)⟩

/-! ## Lemmas about the learning-service orchestrator -/

theorem generateCertificate_insert_fault (now : Date) (code : String)
    (faults : CertFaults) (p : CertParams) (db : LearnDB) (m : String)
    (hscore : ¬ p.score < 70)
    (hins : faults.certInsert = some m)
    (hnocert : (certStep2 now faults p db).user_certificates.find?
      (certMatches p.userId p.courseId) = none) :
    (generateCertificate now code faults p db).1.success = false ∧
    (generateCertificate now code faults p db).1.certificateId = none := by
  unfold generateCertificate
  rw [if_neg hscore]
  simp only [hnocert]
  cases htpl : certTemplateStep faults (certStep2 now faults p db) with
  | none => exact ⟨rfl, rfl⟩
  | some td =>
    obtain ⟨t, db'⟩ := td
    simp [hins]

theorem learningWriteStep_no_fault (now : Date) (uuid : List Char)
    (data_courseId : Option String) (totalModules : Option Nat)
    (r : AssessmentResult) (lwFault : Option String) (db : LearnDB)
    (hlw : lwFault = none) :
    ∃ db1,
      learningWriteStep now uuid data_courseId totalModules r lwFault db =
        .ok db1 ∧
      db1.user_certificates = db.user_certificates ∧
      db1.profiles = db.profiles := by
  subst hlw
  unfold learningWriteStep
  split
  · exact ⟨_, rfl, rfl, rfl⟩
  · exact ⟨_, rfl, rfl, rfl⟩

/-! ## Claims about the learning-service failure policy -/

/-- C9 counterexample: the claim says a storage fault while inserting the
credential row is fatal and the request's response reports the failure.  In
the code the `throw saveError` is caught by `generateCertificate`'s own
`catch` and converted to `{ success: false }`; `evaluateAssessment` then
still returns a success envelope.  At this concrete input (passing answer,
profile and template present, credential-insert fault injected) the response
is `success: true` with `certificateGenerated: false` — not a failure. -/
theorem credential_insert_fault_counterexample :
    (evaluateAssessmentAction witnessRpc witnessDate "CERT-1" c9faults
        "user_123" true (some [{ questionId := 1, selectedAnswer := "a" }])
        (some "c1") (some "Course One") (some 5) baseLearnDB).1 =
      Envelope.ok
        { totalQuestions := 1
          correctAnswers := 1
          score := 100
          passed := true
          answers := [{ questionId := 1, selectedAnswer := "a"
                        isCorrect := true, correctAnswer := some "a" }]
          saved := true
          certificateGenerated := false
          certificateId := none } := by
  decide

/-- C9 (amended): a storage fault at the credential insert (step 6) is
caught inside issuance and reported only as `success: false` from
`generateCertificate`; the `evaluateAssessment` request still returns a
success envelope whose payload has `certificateGenerated = false` and
`certificateId = null` — the request does not fail.  (Step-2
completion-tracking faults are likewise swallowed: `faults.certFaults`
is unconstrained except for the insert fault.) -/
theorem credential_insert_fault_swallowed
    (profileRpc : List ProfileRow → Except String (List ProfileRow))
    (now : Date) (code : String) (faults : EvalFaults)
    (clerkUserId : String) (as : List Answer) (cid cn : String)
    (totalModules : Option Nat) (db : LearnDB) (m : String)
    (prof : ProfileRow)
    (hclerk : clerkUserId ≠ "") (hcid : cid ≠ "") (hcn : cn ≠ "")
    (hsel : faults.selectQuestions = none)
    (hlw : faults.learningWrite = none)
    (hins : faults.certFaults.certInsert = some m)
    (hqs : questionsFor (some cid) db ≠ [])
    (hpassed : (scoreAssessment (questionsFor (some cid) db) as).passed = true)
    (hprof : (ensureProfiles profileRpc db.profiles).find?
        (fun pr => pr.id = generateConsistentUUID (codeUnits clerkUserId)) =
      some prof)
    (hname : prof.full_name ≠ "")
    (hnocert : db.user_certificates.find?
        (certMatches (generateConsistentUUID (codeUnits clerkUserId)) cid) =
      none) :
    ∃ db', evaluateAssessmentAction profileRpc now code faults clerkUserId
        true (some as) (some cid) (some cn) totalModules db =
      (.ok
        { totalQuestions :=
            (scoreAssessment (questionsFor (some cid) db) as).totalQuestions
          correctAnswers :=
            (scoreAssessment (questionsFor (some cid) db) as).correctAnswers
          score := (scoreAssessment (questionsFor (some cid) db) as).score
          passed := true
          answers := (scoreAssessment (questionsFor (some cid) db) as).answers
          saved := true
          certificateGenerated := false
          certificateId := none }, db') := by
  have h70 : 70 ≤ (scoreAssessment (questionsFor (some cid) db) as).score :=
    of_decide_eq_true hpassed
  obtain ⟨db1, hdb1, huc1, hprofs1⟩ :=
    learningWriteStep_no_fault now (generateConsistentUUID
        (codeUnits clerkUserId)) (some cid) totalModules
      (scoreAssessment (questionsFor (some cid) db) as) faults.learningWrite
      { db with profiles := ensureProfiles profileRpc db.profiles } hlw
  have hcert := generateCertificate_insert_fault now code faults.certFaults
    { userId := generateConsistentUUID (codeUnits clerkUserId)
      name := prof.full_name
      courseId := cid
      courseName := cn
      score := (scoreAssessment (questionsFor (some cid) db) as).score
      clerkUserId := some clerkUserId } db1 m (Nat.not_lt.mpr h70) hins
    (by rw [certStep2_user_certificates, huc1]; exact hnocert)
  have hcp : certPhase now code faults.certFaults clerkUserId
      (generateConsistentUUID (codeUnits clerkUserId)) (some cid) (some cn)
      (scoreAssessment (questionsFor (some cid) db) as) db1 =
      generateCertificate now code faults.certFaults
        { userId := generateConsistentUUID (codeUnits clerkUserId)
          name := prof.full_name
          courseId := cid
          courseName := cn
          score := (scoreAssessment (questionsFor (some cid) db) as).score
          clerkUserId := some clerkUserId } db1 := by
    unfold certPhase
    rw [if_pos ⟨hpassed, by simp [jsTruthyS, hcn]⟩, hprofs1]
    simp only [hprof]
    rw [if_pos hname]
    rfl
  refine ⟨(certPhase now code faults.certFaults clerkUserId
    (generateConsistentUUID (codeUnits clerkUserId)) (some cid) (some cn)
    (scoreAssessment (questionsFor (some cid) db) as) db1).2, ?_⟩
  unfold evaluateAssessmentAction
  rw [if_neg hclerk, if_neg (by simp [jsTruthyS, hcid])]
  simp only [hsel]
  rw [if_neg hqs]
  simp only [Option.getD]
  simp only [hdb1]
  rw [hcp, hcert.1, hcert.2, hpassed]

/-- Witness for the amended C9, applying it at the counterexample's concrete
input. -/
theorem credential_insert_fault_swallowed_witness :
    (("user_123" : String) ≠ "" ∧ ("c1" : String) ≠ "" ∧
      ("Course One" : String) ≠ "" ∧
      c9faults.selectQuestions = none ∧ c9faults.learningWrite = none ∧
      c9faults.certFaults.certInsert = some "insert failed" ∧
      questionsFor (some "c1") baseLearnDB ≠ [] ∧
      (scoreAssessment (questionsFor (some "c1") baseLearnDB)
        [{ questionId := 1, selectedAnswer := "a" }]).passed = true ∧
      (ensureProfiles witnessRpc baseLearnDB.profiles).find?
        (fun pr => pr.id = generateConsistentUUID (codeUnits "user_123")) =
        some learnProfile ∧
      learnProfile.full_name ≠ "" ∧
      baseLearnDB.user_certificates.find?
        (certMatches (generateConsistentUUID (codeUnits "user_123")) "c1") =
        none) ∧
    (∃ db', evaluateAssessmentAction witnessRpc witnessDate "CERT-1" c9faults
        "user_123" true (some [{ questionId := 1, selectedAnswer := "a" }])
        (some "c1") (some "Course One") (some 5) baseLearnDB =
      (.ok
        { totalQuestions :=
            (scoreAssessment (questionsFor (some "c1") baseLearnDB)
              [{ questionId := 1, selectedAnswer := "a" }]).totalQuestions
          correctAnswers :=
            (scoreAssessment (questionsFor (some "c1") baseLearnDB)
              [{ questionId := 1, selectedAnswer := "a" }]).correctAnswers
          score :=
            (scoreAssessment (questionsFor (some "c1") baseLearnDB)
              [{ questionId := 1, selectedAnswer := "a" }]).score
          passed := true
          answers :=
            (scoreAssessment (questionsFor (some "c1") baseLearnDB)
              [{ questionId := 1, selectedAnswer := "a" }]).answers
          saved := true
          certificateGenerated := false
          certificateId := none }, db')) :=
  ⟨by decide,
   credential_insert_fault_swallowed witnessRpc witnessDate "CERT-1" c9faults
     "user_123" [{ questionId := 1, selectedAnswer := "a" }] "c1"
     "Course One" (some 5) baseLearnDB "insert failed" learnProfile
     (by decide) (by decide) (by decide) rfl rfl rfl (by decide) (by decide)
     (by decide) (by decide) (by decide)⟩

/-- C10: in the `fetch` action, when no learning record exists for the
(identity, course) pair and creating one fails at the storage layer, the
failure is swallowed: the request still returns a success envelope whose
data payload is `null` (and only the best-effort profile ensure has touched
storage). -/
theorem fetch_create_fault_swallowed
    (profileRpc : List ProfileRow → Except String (List ProfileRow))
    (faults : FetchFaults) (clerkUserId cid : String) (tm : Nat)
    (db : LearnDB) (m : String)
    (hclerk : clerkUserId ≠ "") (hcid : cid ≠ "") (htm : tm ≠ 0)
    (hsel : faults.selectLearning = none)
    (hcreate : faults.createLearning = some m)
    (hmiss : db.user_learning.find? (fun r =>
        r.user_id = generateConsistentUUID (codeUnits clerkUserId) ∧
        some r.course_id = some cid) = none) :
    fetchAction profileRpc faults clerkUserId (some cid) (some tm) db =
      (.ok none,
       { db with profiles := ensureProfiles profileRpc db.profiles }) := by
  unfold fetchAction
  rw [if_neg hclerk]
  simp only [hsel]
  rw [if_pos ⟨hmiss, by simp [jsTruthyN, htm], by simp [jsTruthyS, hcid]⟩]
  simp only [hcreate]

/-- Witness for C10: a concrete `fetch` against an empty learning table with
an injected create fault returns the success envelope with `null` data. -/
theorem fetch_create_fault_swallowed_witness :
    (("user_123" : String) ≠ "" ∧ ("c1" : String) ≠ "" ∧ (5 : Nat) ≠ 0 ∧
      c10faults.selectLearning = none ∧
      c10faults.createLearning = some "disk full" ∧
      baseLearnDB.user_learning.find? (fun r =>
        r.user_id = generateConsistentUUID (codeUnits "user_123") ∧
        some r.course_id = some "c1") = none) ∧
    fetchAction witnessRpc c10faults "user_123" (some "c1") (some 5)
        baseLearnDB =
      (.ok none,
       { baseLearnDB with
          profiles := ensureProfiles witnessRpc baseLearnDB.profiles }) :=
  ⟨by decide,
   fetch_create_fault_swallowed witnessRpc c10faults "user_123" "c1" 5
     baseLearnDB "disk full" (by decide) (by decide) (by decide) rfl rfl
     (by decide)⟩

end MockInvi
